import Mathlib

/-!
# Replay model and exporters of `slp-parser` (`replay.cpp`)

A shallow embedding of `SlippiReplay::setFrames` and of the exporters
`playerFramesAsParquet`, `itemFramesAsParquet`, `fodPlatformFramesAsParquet`
and `playerSettingsAsJson`, followed by the properties established about them.

Conventions of the embedding.

* The record types are declared in `replay.h`, which is not among the sources;
  only the members that `replay.cpp` touches are kept.  A member that is copied
  unchanged into an Arrow column is carried at that column's type
  (`uint8`/`uint16`/`uint32` as `Nat`, `float32` as `Float32`, `boolean` as
  `Bool`, `utf8` as `String`).
* `first_frame`, `last_frame` and the frame number of an item frame are signed
  (`Int`); `frame_count` is unsigned 32-bit, so the signed difference stored in
  it is reduced modulo `2^32`.
* A frame pointer is `Option (List _)`: `none` is a pointer that owns no
  storage, `some a` is an array `a`.  Reading index `f` of such a pointer is
  `readAt`, which is `none` outside the allocated storage (undefined behaviour
  in the program).
* `CharExt::CLIMBER` and `MAX_ITEMS` come from headers that are not among the
  sources; the functions take them as parameters.
-/

namespace slip

/-- A `float` member, carried as its IEEE-754 bit pattern; pattern `0` is `0.0f`. -/
abbrev Float32 := Nat

/-- Members of `SlippiFrame` read by `playerFramesAsParquet`, in order of first use. -/
structure SlippiFrame where
  char_id : Nat
  follower : Bool
  seed : Nat
  pos_x_pre : Float32
  pos_y_pre : Float32
  face_dir_pre : Float32
  joy_x : Float32
  joy_y : Float32
  c_x : Float32
  c_y : Float32
  trigger : Float32
  buttons : Nat
  phys_l : Float32
  phys_r : Float32
  ucf_x : Nat
  percent_pre : Float32
  action_pre : Nat
  action_post : Nat
  pos_x_post : Float32
  pos_y_post : Float32
  face_dir_post : Float32
  percent_post : Float32
  shield : Float32
  hit_with : Nat
  combo : Nat
  hurt_by : Nat
  stocks : Nat
  action_fc : Float32
  hitstun : Float32
  airborne : Bool
  ground_id : Nat
  jumps : Nat
  l_cancel : Nat
  alive : Bool
  hurtbox : Nat
  self_air_x : Float32
  self_air_y : Float32
  attack_x : Float32
  attack_y : Float32
  self_grd_x : Float32
  hitlag : Float32
  anim_index : Nat
deriving Inhabited, DecidableEq

/-- Members of `SlippiPlayer` used by `replay.cpp`. -/
structure SlippiPlayer where
  player_type : Nat
  ext_char_id : Nat
  tag : String
  tag_code : String
  frame : Option (List SlippiFrame)
deriving Inhabited, DecidableEq

/-- Members of `SlippiItemFrame` read by `itemFramesAsParquet`. -/
structure SlippiItemFrame where
  frame : Int
  state : Nat
  face_dir : Float32
  xvel : Float32
  yvel : Float32
  xpos : Float32
  ypos : Float32
  damage : Nat
  expire : Float32
  flags_1 : Nat
  flags_2 : Nat
  flags_3 : Nat
  flags_4 : Nat
  owner : Nat
deriving Inhabited, DecidableEq

/-- Members of `SlippiItem` used by `itemFramesAsParquet`. -/
structure SlippiItem where
  spawn_id : Nat
  type : Nat
  num_frames : Nat
  frame : Option (List SlippiItemFrame)
deriving Inhabited, DecidableEq

/-- One element of `platform_frames`. -/
structure PlatformFrame where
  frame : Nat
  left_height : Float32
  right_height : Float32
deriving Inhabited, DecidableEq

/-- Members of `SlippiReplay` used by `replay.cpp`.  `player` stands for
`player[8]` and `item` for `item[MAX_ITEMS]`; both are indexed by position. -/
structure SlippiReplay where
  slippi_version_raw : Nat
  start_time : String
  first_frame : Int
  last_frame : Int
  frame_count : Nat
  player : Nat → SlippiPlayer
  item : Nat → SlippiItem
  platform_frames : List PlatformFrame

/-- Conversion of a signed value to `uint32_t`. -/
def toUInt32 (x : Int) : Nat := (x % 2 ^ 32).toNat

/-- Conversion of a signed value to `uint8_t`. -/
def toUInt8 (x : Int) : Nat := (x % 2 ^ 8).toNat

/-- Conversion of a value to `int32_t`. -/
def toInt32 (x : Int) : Int := (x + 2 ^ 31) % 2 ^ 32 - 2 ^ 31

/-- Reading element `f` through a frame pointer. -/
def readAt {α : Type} (ptr : Option (List α)) (f : Nat) : Option α :=
  match ptr with
  | none => none
  | some a => a[f]?

/-- The array produced by `new SlippiFrame[n]`. -/
def newFrames (n : Nat) : List SlippiFrame := List.replicate n default

/-- State threaded through `setFrames`: the replay, and the slots for which a
`new SlippiFrame[...]` was executed, in execution order. -/
structure SetFramesState where
  replay : SlippiReplay
  allocated : List Nat

/-- The statement `this->player[k].frame = new SlippiFrame[this->frame_count];`. -/
def allocFrame (st : SetFramesState) (k : Nat) : SetFramesState :=
  { replay :=
      { st.replay with
        player := fun j =>
          if j = k then
            { st.replay.player j with frame := some (newFrames st.replay.frame_count) }
          else st.replay.player j }
    allocated := st.allocated ++ [k] }

/-- Body of the loop of `setFrames` for slot `i`. -/
def setFramesBody (CLIMBER : Nat) (st : SetFramesState) (i : Nat) : SetFramesState :=
  if (st.replay.player i).player_type ≠ 3 then
    let st1 := allocFrame st i
    if (st1.replay.player i).ext_char_id = CLIMBER then
      allocFrame st1 (i + 4)
    else st1
  else st

/-- The function `SlippiReplay::setFrames(max_frames)`, with its allocation record. -/
def setFramesRun (CLIMBER : Nat) (s : SlippiReplay) (max_frames : Int) : SetFramesState :=
  let s1 := { s with last_frame := max_frames }
  let s2 := { s1 with frame_count := toUInt32 (max_frames - s1.first_frame) }
  (List.range 4).foldl (setFramesBody CLIMBER) { replay := s2, allocated := [] }

/-- The function `SlippiReplay::setFrames(max_frames)`: the replay after the call. -/
def setFrames (CLIMBER : Nat) (s : SlippiReplay) (max_frames : Int) : SlippiReplay :=
  (setFramesRun CLIMBER s max_frames).replay


/-! ## Arrow builders, arrays and tables -/

/-- Arrow data types used by the schemas of `replay.cpp`. -/
inductive DataType where
  | utf8 | uint8 | uint16 | uint32 | float32 | boolean
deriving DecidableEq, Repr

/-- A schema entry `arrow::field(name, type)`. -/
structure Field where
  name : String
  type : DataType
deriving DecidableEq

/-- A finished `arrow::Array`: its type together with its values. -/
inductive ArrowArray where
  | utf8 (values : List String)
  | uint8 (values : List Nat)
  | uint16 (values : List Nat)
  | uint32 (values : List Nat)
  | float32 (values : List Float32)
  | boolean (values : List Bool)
deriving DecidableEq

/-- Number of values of an array. -/
def ArrowArray.length : ArrowArray → Nat
  | .utf8 v => v.length
  | .uint8 v => v.length
  | .uint16 v => v.length
  | .uint32 v => v.length
  | .float32 v => v.length
  | .boolean v => v.length

/-- Data type of an array. -/
def ArrowArray.type : ArrowArray → DataType
  | .utf8 _ => .utf8
  | .uint8 _ => .uint8
  | .uint16 _ => .uint16
  | .uint32 _ => .uint32
  | .float32 _ => .float32
  | .boolean _ => .boolean

/-- An `arrow::UInt8Builder`: the values appended so far. -/
structure UInt8Builder where
  values : List Nat
deriving DecidableEq

/-- An `arrow::UInt16Builder`. -/
structure UInt16Builder where
  values : List Nat
deriving DecidableEq

/-- An `arrow::UInt32Builder`. -/
structure UInt32Builder where
  values : List Nat
deriving DecidableEq

/-- An `arrow::FloatBuilder`. -/
structure FloatBuilder where
  values : List Float32
deriving DecidableEq

/-- An `arrow::BooleanBuilder`. -/
structure BooleanBuilder where
  values : List Bool
deriving DecidableEq

/-- An `arrow::StringBuilder`. -/
structure StringBuilder where
  values : List String
deriving DecidableEq

def UInt8Builder.Append (b : UInt8Builder) (v : Nat) : UInt8Builder := ⟨b.values ++ [v]⟩
def UInt16Builder.Append (b : UInt16Builder) (v : Nat) : UInt16Builder := ⟨b.values ++ [v]⟩
def UInt32Builder.Append (b : UInt32Builder) (v : Nat) : UInt32Builder := ⟨b.values ++ [v]⟩
def FloatBuilder.Append (b : FloatBuilder) (v : Float32) : FloatBuilder := ⟨b.values ++ [v]⟩
def BooleanBuilder.Append (b : BooleanBuilder) (v : Bool) : BooleanBuilder := ⟨b.values ++ [v]⟩
def StringBuilder.Append (b : StringBuilder) (v : String) : StringBuilder := ⟨b.values ++ [v]⟩

def UInt8Builder.Finish (b : UInt8Builder) : ArrowArray := .uint8 b.values
def UInt16Builder.Finish (b : UInt16Builder) : ArrowArray := .uint16 b.values
def UInt32Builder.Finish (b : UInt32Builder) : ArrowArray := .uint32 b.values
def FloatBuilder.Finish (b : FloatBuilder) : ArrowArray := .float32 b.values
def BooleanBuilder.Finish (b : BooleanBuilder) : ArrowArray := .boolean b.values
def StringBuilder.Finish (b : StringBuilder) : ArrowArray := .utf8 b.values

/-- Result of `arrow::Table::Make(schema, arrays)`: the k-th array is the column
of the k-th schema field. -/
structure Table where
  schema : List Field
  columns : List ArrowArray
deriving DecidableEq

/-- The function `arrow::Table::Make`. -/
def Table.Make (schema : List Field) (arrays : List ArrowArray) : Table := ⟨schema, arrays⟩

/-- The type `arrow::Status`, as far as `replay.cpp` produces it. -/
inductive Status where
  | OK
  | ExecutionError (msg : String)
deriving DecidableEq

/-- What the `try` block around `FileOutputStream::Open` and `WriteTable` does:
it completes, or one of the three `catch` clauses is entered. -/
inductive WriteOutcome where
  | completed
  | parquetException (what : String)
  | stdException (what : String)
  | unknownException
deriving DecidableEq

/-- The status returned after the `try` block. -/
def statusAfterWrite : WriteOutcome → Status
  | .completed => .OK
  | .parquetException what => .ExecutionError ("ParquetException: " ++ what)
  | .stdException what => .ExecutionError ("std::exception: " ++ what)
  | .unknownException => .ExecutionError "Unknown error during Parquet write"

/-- The file system as the exporters use it: the outcome of opening `path` and
writing `table` to it. -/
abbrev Writer := String → Table → WriteOutcome

/-- Observable result of an exporter: the path and table handed to the Parquet
writer, if any, and the returned status. -/
structure ExportResult where
  output : Option (String × Table)
  status : Status
deriving DecidableEq

/-! ## Version gates -/

/-- The assignment `_slippi_maj = (s.slippi_version_raw >> 24) & 0xff`. -/
def slippi_maj (s : SlippiReplay) : Nat := (s.slippi_version_raw >>> 24) &&& 0xff

/-- The assignment `_slippi_min = (s.slippi_version_raw >> 16) & 0xff`. -/
def slippi_min (s : SlippiReplay) : Nat := (s.slippi_version_raw >>> 16) &&& 0xff

/-- The assignment `_slippi_rev = (s.slippi_version_raw >> 8) & 0xff`. -/
def slippi_rev (s : SlippiReplay) : Nat := (s.slippi_version_raw >>> 8) &&& 0xff

/-- Modelled from the spec: the macro `MIN_VERSION(maj,min,rev)` is defined in
`util.h`, which is not among the sources.  It holds when the version triple
unpacked into `_slippi_maj`, `_slippi_min`, `_slippi_rev` is at least
`(maj, min, rev)` in lexicographic order. -/
def MIN_VERSION (_slippi_maj _slippi_min _slippi_rev maj min rev : Nat) : Bool :=
  decide (_slippi_maj > maj ∨
    (_slippi_maj = maj ∧ _slippi_min > min) ∨
    (_slippi_maj = maj ∧ _slippi_min = min ∧ _slippi_rev ≥ rev))

/-! ## `playerFramesAsParquet` -/

/-- The column builders declared by `playerFramesAsParquet`, in declaration order. -/
structure PlayerBuilders where
  ucf_x_b : UInt8Builder
  char_id_b : UInt8Builder
  hit_with_b : UInt8Builder
  combo_b : UInt8Builder
  hurt_by_b : UInt8Builder
  stocks_b : UInt8Builder
  jumps_b : UInt8Builder
  l_cancel_b : UInt8Builder
  hurtbox_b : UInt8Builder
  player_index_b : UInt8Builder
  action_pre_b : UInt16Builder
  action_post_b : UInt16Builder
  buttons_b : UInt16Builder
  ground_id_b : UInt16Builder
  frame_number_b : UInt32Builder
  seed_b : UInt32Builder
  anim_index_b : UInt32Builder
  pos_x_pre_b : FloatBuilder
  pos_y_pre_b : FloatBuilder
  joy_x_b : FloatBuilder
  joy_y_b : FloatBuilder
  c_x_b : FloatBuilder
  c_y_b : FloatBuilder
  trigger_b : FloatBuilder
  pos_x_post_b : FloatBuilder
  pos_y_post_b : FloatBuilder
  phys_l_b : FloatBuilder
  phys_r_b : FloatBuilder
  percent_pre_b : FloatBuilder
  percent_post_b : FloatBuilder
  face_dir_pre_b : FloatBuilder
  face_dir_post_b : FloatBuilder
  shield_b : FloatBuilder
  action_fc_b : FloatBuilder
  hitstun_b : FloatBuilder
  self_air_x_b : FloatBuilder
  self_air_y_b : FloatBuilder
  attack_x_b : FloatBuilder
  attack_y_b : FloatBuilder
  self_grd_x_b : FloatBuilder
  hitlag_b : FloatBuilder
  follower_b : BooleanBuilder
  alive_b : BooleanBuilder
  airborne_b : BooleanBuilder
  match_id_b : StringBuilder
  player_id_b : StringBuilder

/-- All builders of `playerFramesAsParquet` as they are declared: empty. -/
def PlayerBuilders.empty : PlayerBuilders where
  ucf_x_b := ⟨[]⟩
  char_id_b := ⟨[]⟩
  hit_with_b := ⟨[]⟩
  combo_b := ⟨[]⟩
  hurt_by_b := ⟨[]⟩
  stocks_b := ⟨[]⟩
  jumps_b := ⟨[]⟩
  l_cancel_b := ⟨[]⟩
  hurtbox_b := ⟨[]⟩
  player_index_b := ⟨[]⟩
  action_pre_b := ⟨[]⟩
  action_post_b := ⟨[]⟩
  buttons_b := ⟨[]⟩
  ground_id_b := ⟨[]⟩
  frame_number_b := ⟨[]⟩
  seed_b := ⟨[]⟩
  anim_index_b := ⟨[]⟩
  pos_x_pre_b := ⟨[]⟩
  pos_y_pre_b := ⟨[]⟩
  joy_x_b := ⟨[]⟩
  joy_y_b := ⟨[]⟩
  c_x_b := ⟨[]⟩
  c_y_b := ⟨[]⟩
  trigger_b := ⟨[]⟩
  pos_x_post_b := ⟨[]⟩
  pos_y_post_b := ⟨[]⟩
  phys_l_b := ⟨[]⟩
  phys_r_b := ⟨[]⟩
  percent_pre_b := ⟨[]⟩
  percent_post_b := ⟨[]⟩
  face_dir_pre_b := ⟨[]⟩
  face_dir_post_b := ⟨[]⟩
  shield_b := ⟨[]⟩
  action_fc_b := ⟨[]⟩
  hitstun_b := ⟨[]⟩
  self_air_x_b := ⟨[]⟩
  self_air_y_b := ⟨[]⟩
  attack_x_b := ⟨[]⟩
  attack_y_b := ⟨[]⟩
  self_grd_x_b := ⟨[]⟩
  hitlag_b := ⟨[]⟩
  follower_b := ⟨[]⟩
  alive_b := ⟨[]⟩
  airborne_b := ⟨[]⟩
  match_id_b := ⟨[]⟩
  player_id_b := ⟨[]⟩

/-- The appends of one row of `playerFramesAsParquet` that precede the version gates. -/
def appendPlayerPlain (s : SlippiReplay) (p f : Nat) (fr : SlippiFrame)
    (b : PlayerBuilders) : PlayerBuilders :=
  { b with
    match_id_b := b.match_id_b.Append s.start_time
    player_id_b := b.player_id_b.Append (s.player (p % 4)).tag_code
    player_index_b := b.player_index_b.Append p
    frame_number_b := b.frame_number_b.Append f
    char_id_b := b.char_id_b.Append fr.char_id
    follower_b := b.follower_b.Append fr.follower
    seed_b := b.seed_b.Append fr.seed
    pos_x_pre_b := b.pos_x_pre_b.Append fr.pos_x_pre
    pos_y_pre_b := b.pos_y_pre_b.Append fr.pos_y_pre
    face_dir_pre_b := b.face_dir_pre_b.Append fr.face_dir_pre
    joy_x_b := b.joy_x_b.Append fr.joy_x
    joy_y_b := b.joy_y_b.Append fr.joy_y
    c_x_b := b.c_x_b.Append fr.c_x
    c_y_b := b.c_y_b.Append fr.c_y
    trigger_b := b.trigger_b.Append fr.trigger
    buttons_b := b.buttons_b.Append fr.buttons
    phys_l_b := b.phys_l_b.Append fr.phys_l
    phys_r_b := b.phys_r_b.Append fr.phys_r
    ucf_x_b := b.ucf_x_b.Append fr.ucf_x
    percent_pre_b := b.percent_pre_b.Append fr.percent_pre
    action_pre_b := b.action_pre_b.Append fr.action_pre
    action_post_b := b.action_post_b.Append fr.action_post
    pos_x_post_b := b.pos_x_post_b.Append fr.pos_x_post
    pos_y_post_b := b.pos_y_post_b.Append fr.pos_y_post
    face_dir_post_b := b.face_dir_post_b.Append fr.face_dir_post
    percent_post_b := b.percent_post_b.Append fr.percent_post
    shield_b := b.shield_b.Append fr.shield
    hit_with_b := b.hit_with_b.Append fr.hit_with
    combo_b := b.combo_b.Append fr.combo
    hurt_by_b := b.hurt_by_b.Append fr.hurt_by
    stocks_b := b.stocks_b.Append fr.stocks
    action_fc_b := b.action_fc_b.Append fr.action_fc }

/-- The block `if(MIN_VERSION(2,0,0)) ... else ...` of `playerFramesAsParquet`. -/
def appendPlayerGate_2_0_0 (s : SlippiReplay) (fr : SlippiFrame)
    (b : PlayerBuilders) : PlayerBuilders :=
  if MIN_VERSION (slippi_maj s) (slippi_min s) (slippi_rev s) 2 0 0 then
    { b with
      hitstun_b := b.hitstun_b.Append fr.hitstun
      airborne_b := b.airborne_b.Append fr.airborne
      ground_id_b := b.ground_id_b.Append fr.ground_id
      jumps_b := b.jumps_b.Append fr.jumps
      l_cancel_b := b.l_cancel_b.Append fr.l_cancel
      alive_b := b.alive_b.Append fr.alive }
  else
    { b with
      hitstun_b := b.hitstun_b.Append 0
      airborne_b := b.airborne_b.Append false
      ground_id_b := b.ground_id_b.Append 0
      jumps_b := b.jumps_b.Append 0
      l_cancel_b := b.l_cancel_b.Append 0
      alive_b := b.alive_b.Append false }

/-- The block `if(MIN_VERSION(2,1,0)) ... else ...` of `playerFramesAsParquet`. -/
def appendPlayerGate_2_1_0 (s : SlippiReplay) (fr : SlippiFrame)
    (b : PlayerBuilders) : PlayerBuilders :=
  if MIN_VERSION (slippi_maj s) (slippi_min s) (slippi_rev s) 2 1 0 then
    { b with
      hurtbox_b := b.hurtbox_b.Append fr.hurtbox }
  else
    { b with
      hurtbox_b := b.hurtbox_b.Append 0 }

/-- The block `if(MIN_VERSION(3,5,0)) ... else ...` of `playerFramesAsParquet`. -/
def appendPlayerGate_3_5_0 (s : SlippiReplay) (fr : SlippiFrame)
    (b : PlayerBuilders) : PlayerBuilders :=
  if MIN_VERSION (slippi_maj s) (slippi_min s) (slippi_rev s) 3 5 0 then
    { b with
      self_air_x_b := b.self_air_x_b.Append fr.self_air_x
      self_air_y_b := b.self_air_y_b.Append fr.self_air_y
      attack_x_b := b.attack_x_b.Append fr.attack_x
      attack_y_b := b.attack_y_b.Append fr.attack_y
      self_grd_x_b := b.self_grd_x_b.Append fr.self_grd_x }
  else
    { b with
      self_air_x_b := b.self_air_x_b.Append 0
      self_air_y_b := b.self_air_y_b.Append 0
      attack_x_b := b.attack_x_b.Append 0
      attack_y_b := b.attack_y_b.Append 0
      self_grd_x_b := b.self_grd_x_b.Append 0 }

/-- The block `if(MIN_VERSION(3,8,0)) ... else ...` of `playerFramesAsParquet`. -/
def appendPlayerGate_3_8_0 (s : SlippiReplay) (fr : SlippiFrame)
    (b : PlayerBuilders) : PlayerBuilders :=
  if MIN_VERSION (slippi_maj s) (slippi_min s) (slippi_rev s) 3 8 0 then
    { b with
      hitlag_b := b.hitlag_b.Append fr.hitlag }
  else
    { b with
      hitlag_b := b.hitlag_b.Append 0 }

/-- The block `if(MIN_VERSION(3,11,0)) ... else ...` of `playerFramesAsParquet`. -/
def appendPlayerGate_3_11_0 (s : SlippiReplay) (fr : SlippiFrame)
    (b : PlayerBuilders) : PlayerBuilders :=
  if MIN_VERSION (slippi_maj s) (slippi_min s) (slippi_rev s) 3 11 0 then
    { b with
      anim_index_b := b.anim_index_b.Append fr.anim_index }
  else
    { b with
      anim_index_b := b.anim_index_b.Append 0 }

/-- All appends of one iteration of the inner loop of `playerFramesAsParquet`,
for slot `p`, index `f` and the frame `fr` stored at `s.player[p].frame[f]`. -/
def appendPlayerRow (s : SlippiReplay) (p f : Nat) (fr : SlippiFrame)
    (b : PlayerBuilders) : PlayerBuilders :=
  appendPlayerGate_3_11_0 s fr (appendPlayerGate_3_8_0 s fr (appendPlayerGate_3_5_0 s fr
    (appendPlayerGate_2_1_0 s fr (appendPlayerGate_2_0_0 s fr (appendPlayerPlain s p f fr b)))))

/-- The schema of `playerFramesAsParquet`. -/
def playerSchema : List Field :=
  [⟨"match_id", .utf8⟩,
   ⟨"player_id", .utf8⟩,
   ⟨"player_index", .uint8⟩,
   ⟨"frame_number", .uint32⟩,
   ⟨"char_id", .uint8⟩,
   ⟨"follower", .boolean⟩,
   ⟨"seed", .uint32⟩,
   ⟨"ucf_x", .uint8⟩,
   ⟨"stocks", .uint8⟩,
   ⟨"alive", .boolean⟩,
   ⟨"anim_index", .uint32⟩,
   ⟨"pos_x_pre", .float32⟩,
   ⟨"pos_y_pre", .float32⟩,
   ⟨"pos_x_post", .float32⟩,
   ⟨"pos_y_post", .float32⟩,
   ⟨"joy_x", .float32⟩,
   ⟨"joy_y", .float32⟩,
   ⟨"c_x", .float32⟩,
   ⟨"c_y", .float32⟩,
   ⟨"trigger", .float32⟩,
   ⟨"buttons", .uint16⟩,
   ⟨"phys_l", .float32⟩,
   ⟨"phys_r", .float32⟩,
   ⟨"shield", .float32⟩,
   ⟨"hit_with", .uint8⟩,
   ⟨"combo", .uint8⟩,
   ⟨"hurt_by", .uint8⟩,
   ⟨"percent_pre", .float32⟩,
   ⟨"percent_post", .float32⟩,
   ⟨"action_pre", .uint16⟩,
   ⟨"action_post", .uint16⟩,
   ⟨"action_fc", .float32⟩,
   ⟨"face_dir_pre", .float32⟩,
   ⟨"face_dir_post", .float32⟩,
   ⟨"hitstun", .float32⟩,
   ⟨"airborne", .boolean⟩,
   ⟨"ground_id", .uint16⟩,
   ⟨"jumps", .uint8⟩,
   ⟨"l_cancel", .uint8⟩,
   ⟨"hurtbox", .uint8⟩,
   ⟨"hitlag", .float32⟩,
   ⟨"self_air_x", .float32⟩,
   ⟨"self_air_y", .float32⟩,
   ⟨"attack_x", .float32⟩,
   ⟨"attack_y", .float32⟩,
   ⟨"self_grd_x", .float32⟩]

/-- The arrays finished from the builders, in the order in which
`playerFramesAsParquet` passes them to `arrow::Table::Make`. -/
def playerArrays (b : PlayerBuilders) : List ArrowArray :=
  [b.match_id_b.Finish,
   b.player_id_b.Finish,
   b.player_index_b.Finish,
   b.frame_number_b.Finish,
   b.char_id_b.Finish,
   b.follower_b.Finish,
   b.seed_b.Finish,
   b.ucf_x_b.Finish,
   b.stocks_b.Finish,
   b.alive_b.Finish,
   b.anim_index_b.Finish,
   b.pos_x_pre_b.Finish,
   b.pos_y_pre_b.Finish,
   b.pos_x_post_b.Finish,
   b.pos_y_post_b.Finish,
   b.joy_x_b.Finish,
   b.joy_y_b.Finish,
   b.c_x_b.Finish,
   b.c_y_b.Finish,
   b.trigger_b.Finish,
   b.buttons_b.Finish,
   b.phys_l_b.Finish,
   b.phys_r_b.Finish,
   b.shield_b.Finish,
   b.hit_with_b.Finish,
   b.combo_b.Finish,
   b.hurt_by_b.Finish,
   b.percent_pre_b.Finish,
   b.percent_post_b.Finish,
   b.action_pre_b.Finish,
   b.action_post_b.Finish,
   b.action_fc_b.Finish,
   b.face_dir_pre_b.Finish,
   b.face_dir_post_b.Finish,
   b.hitstun_b.Finish,
   b.airborne_b.Finish,
   b.ground_id_b.Finish,
   b.jumps_b.Finish,
   b.l_cancel_b.Finish,
   b.hurtbox_b.Finish,
   b.hitlag_b.Finish,
   b.self_air_x_b.Finish,
   b.self_air_y_b.Finish,
   b.attack_x_b.Finish,
   b.attack_y_b.Finish,
   b.self_grd_x_b.Finish]
/-- One iteration of the inner loop of `playerFramesAsParquet`: every append of
the iteration reads `s.player[p].frame[f]`; the result is `none` when that read
is outside allocated storage. -/
def playerFrameStep (s : SlippiReplay) (p : Nat) (b : PlayerBuilders) (f : Nat) :
    Option PlayerBuilders :=
  match readAt (s.player p).frame f with
  | none => none
  | some fr => some (appendPlayerRow s p f fr b)

/-- One iteration of the outer loop of `playerFramesAsParquet`. -/
def playerSlotStep (s : SlippiReplay) (b : PlayerBuilders) (p : Nat) : Option PlayerBuilders :=
  if (s.player p).player_type ≠ 3 then
    (List.range s.frame_count).foldlM (playerFrameStep s p) b
  else some b

/-- The builders of `playerFramesAsParquet` after its loops. -/
def playerFrameBuilders (s : SlippiReplay) : Option PlayerBuilders :=
  (List.range 8).foldlM (playerSlotStep s) PlayerBuilders.empty

/-- The table that `playerFramesAsParquet` makes from its builders. -/
def playerTable (b : PlayerBuilders) : Table := Table.Make playerSchema (playerArrays b)

/-- The function `SlippiReplay::playerFramesAsParquet`; `none` when a frame read is outside
allocated storage. -/
def playerFramesAsParquet (write : Writer) (s : SlippiReplay) : Option ExportResult :=
  match playerFrameBuilders s with
  | none => none
  | some b =>
    let table := playerTable b
    some { output := some ("/tmp/frames.parquet", table)
           status := statusAfterWrite (write "/tmp/frames.parquet" table) }

/-- The slots and frame indices for which `playerFramesAsParquet` is to emit a
row, in row order: all `(p, f)` with `p < 8`, `player[p].player_type != 3` and
`f < frame_count`, ordered by `p` and then by `f`. -/
def activePairs (s : SlippiReplay) : List (Nat × Nat) :=
  (List.product (List.range 8) (List.range s.frame_count)).filter
    (fun pf => decide ((s.player pf.1).player_type ≠ 3))

/-- The stored frame of a pair, together with the pair. -/
def storedFrame (s : SlippiReplay) (pf : Nat × Nat) : Option (Nat × Nat × SlippiFrame) :=
  (readAt (s.player pf.1).frame pf.2).map (fun fr => (pf.1, pf.2, fr))

/-- The stored frames of all active pairs, in row order; `none` when one of
them lies outside allocated storage. -/
def storedFrames (s : SlippiReplay) : Option (List (Nat × Nat × SlippiFrame)) :=
  (activePairs s).mapM (storedFrame s)

/-- The builders that hold one value per element of `es`, each element being a
slot, a frame index and the frame stored there: the column contents that the
export is to be compared with. -/
def playerColumns (s : SlippiReplay) (es : List (Nat × Nat × SlippiFrame)) : PlayerBuilders where
  ucf_x_b := ⟨es.map (fun e => e.2.2.ucf_x)⟩
  char_id_b := ⟨es.map (fun e => e.2.2.char_id)⟩
  hit_with_b := ⟨es.map (fun e => e.2.2.hit_with)⟩
  combo_b := ⟨es.map (fun e => e.2.2.combo)⟩
  hurt_by_b := ⟨es.map (fun e => e.2.2.hurt_by)⟩
  stocks_b := ⟨es.map (fun e => e.2.2.stocks)⟩
  jumps_b := ⟨es.map (fun e =>
    if MIN_VERSION (slippi_maj s) (slippi_min s) (slippi_rev s) 2 0 0 then e.2.2.jumps else 0)⟩
  l_cancel_b := ⟨es.map (fun e =>
    if MIN_VERSION (slippi_maj s) (slippi_min s) (slippi_rev s) 2 0 0 then e.2.2.l_cancel else 0)⟩
  hurtbox_b := ⟨es.map (fun e =>
    if MIN_VERSION (slippi_maj s) (slippi_min s) (slippi_rev s) 2 1 0 then e.2.2.hurtbox else 0)⟩
  player_index_b := ⟨es.map (fun e => e.1)⟩
  action_pre_b := ⟨es.map (fun e => e.2.2.action_pre)⟩
  action_post_b := ⟨es.map (fun e => e.2.2.action_post)⟩
  buttons_b := ⟨es.map (fun e => e.2.2.buttons)⟩
  ground_id_b := ⟨es.map (fun e =>
    if MIN_VERSION (slippi_maj s) (slippi_min s) (slippi_rev s) 2 0 0 then e.2.2.ground_id else 0)⟩
  frame_number_b := ⟨es.map (fun e => e.2.1)⟩
  seed_b := ⟨es.map (fun e => e.2.2.seed)⟩
  anim_index_b := ⟨es.map (fun e =>
    if MIN_VERSION (slippi_maj s) (slippi_min s) (slippi_rev s) 3 11 0 then e.2.2.anim_index else 0)⟩
  pos_x_pre_b := ⟨es.map (fun e => e.2.2.pos_x_pre)⟩
  pos_y_pre_b := ⟨es.map (fun e => e.2.2.pos_y_pre)⟩
  joy_x_b := ⟨es.map (fun e => e.2.2.joy_x)⟩
  joy_y_b := ⟨es.map (fun e => e.2.2.joy_y)⟩
  c_x_b := ⟨es.map (fun e => e.2.2.c_x)⟩
  c_y_b := ⟨es.map (fun e => e.2.2.c_y)⟩
  trigger_b := ⟨es.map (fun e => e.2.2.trigger)⟩
  pos_x_post_b := ⟨es.map (fun e => e.2.2.pos_x_post)⟩
  pos_y_post_b := ⟨es.map (fun e => e.2.2.pos_y_post)⟩
  phys_l_b := ⟨es.map (fun e => e.2.2.phys_l)⟩
  phys_r_b := ⟨es.map (fun e => e.2.2.phys_r)⟩
  percent_pre_b := ⟨es.map (fun e => e.2.2.percent_pre)⟩
  percent_post_b := ⟨es.map (fun e => e.2.2.percent_post)⟩
  face_dir_pre_b := ⟨es.map (fun e => e.2.2.face_dir_pre)⟩
  face_dir_post_b := ⟨es.map (fun e => e.2.2.face_dir_post)⟩
  shield_b := ⟨es.map (fun e => e.2.2.shield)⟩
  action_fc_b := ⟨es.map (fun e => e.2.2.action_fc)⟩
  hitstun_b := ⟨es.map (fun e =>
    if MIN_VERSION (slippi_maj s) (slippi_min s) (slippi_rev s) 2 0 0 then e.2.2.hitstun else 0)⟩
  self_air_x_b := ⟨es.map (fun e =>
    if MIN_VERSION (slippi_maj s) (slippi_min s) (slippi_rev s) 3 5 0 then e.2.2.self_air_x else 0)⟩
  self_air_y_b := ⟨es.map (fun e =>
    if MIN_VERSION (slippi_maj s) (slippi_min s) (slippi_rev s) 3 5 0 then e.2.2.self_air_y else 0)⟩
  attack_x_b := ⟨es.map (fun e =>
    if MIN_VERSION (slippi_maj s) (slippi_min s) (slippi_rev s) 3 5 0 then e.2.2.attack_x else 0)⟩
  attack_y_b := ⟨es.map (fun e =>
    if MIN_VERSION (slippi_maj s) (slippi_min s) (slippi_rev s) 3 5 0 then e.2.2.attack_y else 0)⟩
  self_grd_x_b := ⟨es.map (fun e =>
    if MIN_VERSION (slippi_maj s) (slippi_min s) (slippi_rev s) 3 5 0 then e.2.2.self_grd_x else 0)⟩
  hitlag_b := ⟨es.map (fun e =>
    if MIN_VERSION (slippi_maj s) (slippi_min s) (slippi_rev s) 3 8 0 then e.2.2.hitlag else 0)⟩
  follower_b := ⟨es.map (fun e => e.2.2.follower)⟩
  alive_b := ⟨es.map (fun e =>
    if MIN_VERSION (slippi_maj s) (slippi_min s) (slippi_rev s) 2 0 0 then e.2.2.alive else false)⟩
  airborne_b := ⟨es.map (fun e =>
    if MIN_VERSION (slippi_maj s) (slippi_min s) (slippi_rev s) 2 0 0 then e.2.2.airborne else false)⟩
  match_id_b := ⟨es.map (fun _ => s.start_time)⟩
  player_id_b := ⟨es.map (fun e => (s.player (e.1 % 4)).tag_code)⟩
/-! ## `itemFramesAsParquet` -/

/-- The column builders declared by `itemFramesAsParquet`, in declaration order. -/
structure ItemBuilders where
  face_dir_b : FloatBuilder
  xvel_b : FloatBuilder
  yvel_b : FloatBuilder
  xpos_b : FloatBuilder
  ypos_b : FloatBuilder
  expire_b : FloatBuilder
  state_b : UInt8Builder
  owner_b : UInt8Builder
  item_type_b : UInt16Builder
  damage_b : UInt16Builder
  missile_type_b : UInt16Builder
  turnip_face_b : UInt16Builder
  is_launched_b : UInt16Builder
  charged_power_b : UInt16Builder
  frame_b : UInt32Builder
  spawn_id_b : UInt32Builder
  match_id_b : StringBuilder
deriving DecidableEq

/-- All builders of `itemFramesAsParquet` as they are declared: empty. -/
def ItemBuilders.empty : ItemBuilders where
  face_dir_b := ⟨[]⟩
  xvel_b := ⟨[]⟩
  yvel_b := ⟨[]⟩
  xpos_b := ⟨[]⟩
  ypos_b := ⟨[]⟩
  expire_b := ⟨[]⟩
  state_b := ⟨[]⟩
  owner_b := ⟨[]⟩
  item_type_b := ⟨[]⟩
  damage_b := ⟨[]⟩
  missile_type_b := ⟨[]⟩
  turnip_face_b := ⟨[]⟩
  is_launched_b := ⟨[]⟩
  charged_power_b := ⟨[]⟩
  frame_b := ⟨[]⟩
  spawn_id_b := ⟨[]⟩
  match_id_b := ⟨[]⟩

/-- The appends of one row of `itemFramesAsParquet` that precede the version gates. -/
def appendItemPlain (s : SlippiReplay) (i : Nat) (fr : SlippiItemFrame)
    (b : ItemBuilders) : ItemBuilders :=
  { b with
    match_id_b := b.match_id_b.Append s.start_time
    spawn_id_b := b.spawn_id_b.Append (s.item i).spawn_id
    item_type_b := b.item_type_b.Append (s.item i).type
    frame_b := b.frame_b.Append (toUInt32 (fr.frame + 123))
    state_b := b.state_b.Append fr.state
    face_dir_b := b.face_dir_b.Append fr.face_dir
    xvel_b := b.xvel_b.Append fr.xvel
    yvel_b := b.yvel_b.Append fr.yvel
    xpos_b := b.xpos_b.Append fr.xpos
    ypos_b := b.ypos_b.Append fr.ypos
    damage_b := b.damage_b.Append fr.damage
    expire_b := b.expire_b.Append fr.expire }

/-- The block `if (MIN_VERSION(3, 2, 0)) ... else ...` of `itemFramesAsParquet`. -/
def appendItemGate_3_2_0 (s : SlippiReplay) (fr : SlippiItemFrame)
    (b : ItemBuilders) : ItemBuilders :=
  if MIN_VERSION (slippi_maj s) (slippi_min s) (slippi_rev s) 3 2 0 then
    { b with
      missile_type_b := b.missile_type_b.Append fr.flags_1
      turnip_face_b := b.turnip_face_b.Append fr.flags_2
      is_launched_b := b.is_launched_b.Append fr.flags_3
      charged_power_b := b.charged_power_b.Append fr.flags_4 }
  else
    { b with
      missile_type_b := b.missile_type_b.Append 0
      turnip_face_b := b.turnip_face_b.Append 0
      is_launched_b := b.is_launched_b.Append 0
      charged_power_b := b.charged_power_b.Append 0 }

/-- The block `if (MIN_VERSION(3, 6, 0)) ... else ...` of `itemFramesAsParquet`. -/
def appendItemGate_3_6_0 (s : SlippiReplay) (fr : SlippiItemFrame)
    (b : ItemBuilders) : ItemBuilders :=
  if MIN_VERSION (slippi_maj s) (slippi_min s) (slippi_rev s) 3 6 0 then
    { b with
      owner_b := b.owner_b.Append fr.owner }
  else
    { b with
      owner_b := b.owner_b.Append (toUInt8 (-1)) }

/-- All appends of one iteration of the inner loop of `itemFramesAsParquet`, for
slot `i` and the item frame `fr` stored at `s.item[i].frame[f]`. -/
def appendItemRow (s : SlippiReplay) (i : Nat) (fr : SlippiItemFrame)
    (b : ItemBuilders) : ItemBuilders :=
  appendItemGate_3_6_0 s fr (appendItemGate_3_2_0 s fr (appendItemPlain s i fr b))

/-- The schema of `itemFramesAsParquet`. -/
def itemSchema : List Field :=
  [⟨"match_id", .utf8⟩,
   ⟨"spawn_id", .uint32⟩,
   ⟨"item_type", .uint16⟩,
   ⟨"frame", .uint32⟩,
   ⟨"state", .uint8⟩,
   ⟨"face_dir", .float32⟩,
   ⟨"xvel", .float32⟩,
   ⟨"yvel", .float32⟩,
   ⟨"xpos", .float32⟩,
   ⟨"ypos", .float32⟩,
   ⟨"damage", .uint16⟩,
   ⟨"expire", .float32⟩,
   ⟨"missile_type", .uint16⟩,
   ⟨"turnip_face", .uint16⟩,
   ⟨"is_launched", .uint16⟩,
   ⟨"charged_power", .uint16⟩,
   ⟨"owner", .uint8⟩]

/-- The arrays finished from the builders, in the order in which
`itemFramesAsParquet` passes them to `arrow::Table::Make`. -/
def itemArrays (b : ItemBuilders) : List ArrowArray :=
  [b.match_id_b.Finish,
   b.spawn_id_b.Finish,
   b.item_type_b.Finish,
   b.frame_b.Finish,
   b.state_b.Finish,
   b.face_dir_b.Finish,
   b.xvel_b.Finish,
   b.yvel_b.Finish,
   b.xpos_b.Finish,
   b.ypos_b.Finish,
   b.damage_b.Finish,
   b.expire_b.Finish,
   b.missile_type_b.Finish,
   b.turnip_face_b.Finish,
   b.is_launched_b.Finish,
   b.charged_power_b.Finish,
   b.owner_b.Finish]

/-- One iteration of the inner loop of `itemFramesAsParquet`: every append of
the iteration reads `s.item[i].frame[f]`; the result is `none` when that read is
outside allocated storage. -/
def itemFrameStep (s : SlippiReplay) (i : Nat) (b : ItemBuilders) (f : Nat) :
    Option ItemBuilders :=
  match readAt (s.item i).frame f with
  | none => none
  | some fr => some (appendItemRow s i fr b)

/-- One iteration of the outer loop of `itemFramesAsParquet`; the first branch
is the `continue`. -/
def itemSlotStep (MAX_ITEMS : Nat) (s : SlippiReplay) (b : ItemBuilders) (i : Nat) :
    Option ItemBuilders :=
  if (s.item i).spawn_id > MAX_ITEMS ∨ (s.item i).num_frames = 0 then
    some b
  else
    (List.range (s.item i).num_frames).foldlM (itemFrameStep s i) b

/-- The builders of `itemFramesAsParquet` after its loops. -/
def itemFrameBuilders (MAX_ITEMS : Nat) (s : SlippiReplay) : Option ItemBuilders :=
  (List.range MAX_ITEMS).foldlM (itemSlotStep MAX_ITEMS s) ItemBuilders.empty

/-- The table that `itemFramesAsParquet` makes from its builders. -/
def itemTable (b : ItemBuilders) : Table := Table.Make itemSchema (itemArrays b)

/-- The function `SlippiReplay::itemFramesAsParquet`; `none` when an item-frame read is
outside allocated storage. -/
def itemFramesAsParquet (MAX_ITEMS : Nat) (write : Writer) (s : SlippiReplay) :
    Option ExportResult :=
  match itemFrameBuilders MAX_ITEMS s with
  | none => none
  | some b =>
    let table := itemTable b
    some { output := some ("/tmp/items.parquet", table)
           status := statusAfterWrite (write "/tmp/items.parquet" table) }

/-- The rows that the loops of `itemFramesAsParquet` go through for slot `i`:
the frame indices `0 .. num_frames - 1` when the slot passes the test of the
outer loop, none otherwise. -/
def itemSlotPairs (MAX_ITEMS : Nat) (s : SlippiReplay) (i : Nat) : List (Nat × Nat) :=
  if (s.item i).spawn_id ≤ MAX_ITEMS ∧ (s.item i).num_frames ≠ 0 then
    (List.range (s.item i).num_frames).map (fun f => (i, f))
  else []

/-- The slots and frame indices of all rows of `itemFramesAsParquet`, in row order. -/
def itemPairs (MAX_ITEMS : Nat) (s : SlippiReplay) : List (Nat × Nat) :=
  (List.range MAX_ITEMS).flatMap (itemSlotPairs MAX_ITEMS s)

/-- The stored item frame of a pair, together with the pair. -/
def storedItemFrame (s : SlippiReplay) (pf : Nat × Nat) : Option (Nat × Nat × SlippiItemFrame) :=
  (readAt (s.item pf.1).frame pf.2).map (fun fr => (pf.1, pf.2, fr))

/-- The stored item frames of all rows, in row order; `none` when one of them
lies outside allocated storage. -/
def storedItemFrames (MAX_ITEMS : Nat) (s : SlippiReplay) :
    Option (List (Nat × Nat × SlippiItemFrame)) :=
  (itemPairs MAX_ITEMS s).mapM (storedItemFrame s)

/-- The builders that hold one value per element of `es`, each element being a
slot, a frame index and the item frame stored there: the column contents that
the export is to be compared with. -/
def itemColumns (s : SlippiReplay) (es : List (Nat × Nat × SlippiItemFrame)) : ItemBuilders where
  face_dir_b := ⟨es.map (fun e => e.2.2.face_dir)⟩
  xvel_b := ⟨es.map (fun e => e.2.2.xvel)⟩
  yvel_b := ⟨es.map (fun e => e.2.2.yvel)⟩
  xpos_b := ⟨es.map (fun e => e.2.2.xpos)⟩
  ypos_b := ⟨es.map (fun e => e.2.2.ypos)⟩
  expire_b := ⟨es.map (fun e => e.2.2.expire)⟩
  state_b := ⟨es.map (fun e => e.2.2.state)⟩
  owner_b := ⟨es.map (fun e =>
    if MIN_VERSION (slippi_maj s) (slippi_min s) (slippi_rev s) 3 6 0 then e.2.2.owner else toUInt8 (-1))⟩
  item_type_b := ⟨es.map (fun e => (s.item e.1).type)⟩
  damage_b := ⟨es.map (fun e => e.2.2.damage)⟩
  missile_type_b := ⟨es.map (fun e =>
    if MIN_VERSION (slippi_maj s) (slippi_min s) (slippi_rev s) 3 2 0 then e.2.2.flags_1 else 0)⟩
  turnip_face_b := ⟨es.map (fun e =>
    if MIN_VERSION (slippi_maj s) (slippi_min s) (slippi_rev s) 3 2 0 then e.2.2.flags_2 else 0)⟩
  is_launched_b := ⟨es.map (fun e =>
    if MIN_VERSION (slippi_maj s) (slippi_min s) (slippi_rev s) 3 2 0 then e.2.2.flags_3 else 0)⟩
  charged_power_b := ⟨es.map (fun e =>
    if MIN_VERSION (slippi_maj s) (slippi_min s) (slippi_rev s) 3 2 0 then e.2.2.flags_4 else 0)⟩
  frame_b := ⟨es.map (fun e => toUInt32 (e.2.2.frame + 123))⟩
  spawn_id_b := ⟨es.map (fun e => (s.item e.1).spawn_id)⟩
  match_id_b := ⟨es.map (fun _ => s.start_time)⟩
/-! ## `fodPlatformFramesAsParquet` -/

/-- The column builders declared by `fodPlatformFramesAsParquet`. -/
structure PlatformBuilders where
  left_height_b : FloatBuilder
  right_height_b : FloatBuilder
  frame_b : UInt32Builder
  match_id_b : StringBuilder
deriving DecidableEq

/-- All builders of `fodPlatformFramesAsParquet` as they are declared: empty. -/
def PlatformBuilders.empty : PlatformBuilders where
  left_height_b := ⟨[]⟩
  right_height_b := ⟨[]⟩
  frame_b := ⟨[]⟩
  match_id_b := ⟨[]⟩

/-- The four appends of one loop iteration, for the element `e`. -/
def appendPlatformRow (s : SlippiReplay) (e : PlatformFrame) (b : PlatformBuilders) :
    PlatformBuilders :=
  { b with
    match_id_b := b.match_id_b.Append s.start_time
    frame_b := b.frame_b.Append e.frame
    left_height_b := b.left_height_b.Append e.left_height
    right_height_b := b.right_height_b.Append e.right_height }

/-- One iteration of `for (size_t i = 0; i < s.platform_frames.size(); ++i)`, with
`e = s.platform_frames[i]`. -/
def platformStep (s : SlippiReplay) (b : PlatformBuilders) (i : Nat) : PlatformBuilders :=
  match s.platform_frames[i]? with
  | some e => appendPlatformRow s e b
  | none => b

/-- The builders of `fodPlatformFramesAsParquet` after its loop. -/
def platformBuilders (s : SlippiReplay) : PlatformBuilders :=
  (List.range s.platform_frames.length).foldl (platformStep s) PlatformBuilders.empty

/-- The schema of `fodPlatformFramesAsParquet`. -/
def platformSchema : List Field :=
  [⟨"match_id", .utf8⟩, ⟨"frame", .uint32⟩, ⟨"left_height", .float32⟩, ⟨"right_height", .float32⟩]

/-- The table that `fodPlatformFramesAsParquet` makes from its builders. -/
def platformTable (b : PlatformBuilders) : Table :=
  Table.Make platformSchema
    [b.match_id_b.Finish, b.frame_b.Finish, b.left_height_b.Finish, b.right_height_b.Finish]

/-- The function `SlippiReplay::fodPlatformFramesAsParquet`. -/
def fodPlatformFramesAsParquet (write : Writer) (s : SlippiReplay) : ExportResult :=
  if !s.platform_frames.isEmpty then
    let table := platformTable (platformBuilders s)
    { output := some ("/tmp/platforms.parquet", table)
      status := statusAfterWrite (write "/tmp/platforms.parquet" table) }
  else
    { output := none, status := .OK }

/-! ## `playerSettingsAsJson` -/

/-- The macro `JSTR(k,s)`, as the text it inserts into the stream. -/
def JSTR (k s : String) : String := " " ++ "\"" ++ k ++ "\": \"" ++ s ++ "\""

/-- The macro `JINT(k,n)`, as the text it inserts into the stream. -/
def JINT (k : String) (n : Int) : String := " " ++ "\"" ++ k ++ "\": " ++ toString (toInt32 n)

/-- One iteration of the loop of `playerSettingsAsJson` on the stream contents `ss`. -/
def playerSettingsStep (s : SlippiReplay) (ss : String) (i : Nat) : String :=
  if (s.player i).player_type ≠ 3 then
    let ss := ss ++ "\x7b"
    let ss := ss ++ JSTR "match_id" s.start_time ++ ","
    let ss := ss ++ JINT "port" (Int.ofNat (i + 1)) ++ ","
    let ss := ss ++ JSTR "slippi_code" (s.player i).tag_code ++ ","
    let ss := ss ++ JSTR "player_tag" (s.player i).tag ++ ","
    let ss := ss ++ JINT "player_type" (Int.ofNat (s.player i).player_type) ++ ","
    let ss := ss ++ JINT "player_index" (Int.ofNat i) ++ ","
    let ss := ss ++ JINT "ext_char" (Int.ofNat (s.player i).ext_char_id)
    ss ++ " \x7d" ++ "\n"
  else ss

/-- The function `SlippiReplay::playerSettingsAsJson`. -/
def playerSettingsAsJson (s : SlippiReplay) : String :=
  (List.range 4).foldl (playerSettingsStep s) ""

/-- The player-settings record of slot `i`: the text between its braces. -/
def playerRecordBody (s : SlippiReplay) (i : Nat) : String :=
  JSTR "match_id" s.start_time ++ "," ++ JINT "port" (Int.ofNat (i + 1)) ++ "," ++
  JSTR "slippi_code" (s.player i).tag_code ++ "," ++ JSTR "player_tag" (s.player i).tag ++ "," ++
  JINT "player_type" (Int.ofNat (s.player i).player_type) ++ "," ++ JINT "player_index" (Int.ofNat i) ++ "," ++
  JINT "ext_char" (Int.ofNat (s.player i).ext_char_id)

/-- The player-settings record of slot `i`, with the line end that follows it. -/
def playerRecord (s : SlippiReplay) (i : Nat) : String :=
  "\x7b" ++ playerRecordBody s i ++ " \x7d" ++ "\n"

/-- The builders that hold one value per element of `es`: the column contents
that the platform export is to be compared with. -/
def platformColumns (s : SlippiReplay) (es : List PlatformFrame) : PlatformBuilders where
  left_height_b := ⟨es.map (fun e => e.left_height)⟩
  right_height_b := ⟨es.map (fun e => e.right_height)⟩
  frame_b := ⟨es.map (fun e => e.frame)⟩
  match_id_b := ⟨es.map (fun _ => s.start_time)⟩

/-! ## Command line driver (`main.cpp`)

The parser, the analysis and the file-system helpers are declared in
`parser.h`, `analyzer.h` and `util.h`, which are not among the sources; the
driver is modelled over an `Env` that answers for them, and what the driver
asks of them is recorded as a list of `Action`s.  A `char*` option is an
`Option String` (`none` is the null pointer); a function is `none` where the
program dereferences a null pointer.  Diagnostic messages (`DOUT1`, `FAIL`,
`WARN`, `INFO`) are not part of the model. -/

/-- The function `getCmdOption(begin, end, option)`: `itr` is the position returned by
`std::find`, which is `end` when the option does not occur. -/
def getCmdOption (args : List String) (option : String) : Option String :=
  let itr := args.indexOf option
  if itr ≠ args.length ∧ itr + 1 ≠ args.length then args[itr + 1]? else none

/-- The function `cmdOptionExists(begin, end, option)`. -/
def cmdOptionExists (args : List String) (option : String) : Bool :=
  decide (args.indexOf option ≠ args.length)

/-- The struct `cmdoptions`. -/
structure cmdoptions where
  dlevel : Option String
  infile : Option String
  outfile : Option String
  analysisfile : Option String
  nodelta : Bool
  dirmode : Bool
  debug : Int
deriving DecidableEq

/-- The members of `slip::Analysis` used by the driver. -/
structure Analysis where
  success : Bool
  asJson : String

/-- An entry of a directory: its path, its `filename()` and its `stem()`. -/
structure DirEntry where
  path : String
  filename : String
  stem : String

/-- The collaborators of the driver: `Parser::load` (by path), `Parser::analyze`
(by the path loaded), `makeDirectoryIfNotExists`, `getFileExt`, the path
concatenation `PATH(a) / PATH(b)` and the entries of a directory. -/
structure Env where
  load : String → Bool
  analyze : String → Analysis
  makeDirectoryIfNotExists : String → Bool
  getFileExt : String → String
  joinPath : String → String → String
  entries : String → List DirEntry

/-- What the driver asks of its collaborators, or writes itself. -/
inductive Action where
  | load (path : String)
  | analyze (path : String)
  | stdout (text : String)
  | analysisSave (path : Option String)
  | parserSave (outfile : String) (infile : Option String) (delta : Bool)
  | makeDirectory (path : String)
deriving DecidableEq

/-- The function `handleAnalysis(c, debug, p)`, for the parser that loaded `loaded`: the
actions performed and the value returned. -/
def handleAnalysis (env : Env) (c : cmdoptions) (loaded : String) : Option (List Action × Int) :=
  let a := env.analyze loaded
  if a.success then
    match c.analysisfile with
    | none => none
    | some analysisfile =>
      if analysisfile = "-" then
        some ([Action.analyze loaded, Action.stdout (a.asJson ++ "\n")], 0)
      else
        some ([Action.analyze loaded, Action.analysisSave c.outfile], 0)
  else
    some ([Action.analyze loaded], 0)

/-- The function `handleJson(c, debug, p)`; the statement of the first branch that wrote
`p.asJson(!c.nodelta)` to `std::cout` is commented out in the source. -/
def handleJson (c : cmdoptions) : Option (List Action × Int) :=
  match c.outfile with
  | none => none
  | some outfile =>
    if outfile = "-" then
      some ([], 0)
    else
      some ([Action.parserSave outfile c.infile (!c.nodelta)], 0)

/-- The function `handleSingleFile(c, debug)`. -/
def handleSingleFile (env : Env) (c : cmdoptions) : Option (List Action × Int) :=
  if c.outfile.isSome ∨ c.analysisfile.isSome then
    match c.infile with
    | none => none
    | some infile =>
      let path := "/tmp/" ++ infile
      if ¬ env.load path then
        some ([Action.load path], 2)
      else
        match (if c.outfile.isSome then handleJson c else some ([], 0)) with
        | none => none
        | some (actj, retj) =>
          match (if c.analysisfile.isSome then handleAnalysis env c path else some ([], 0)) with
          | none => none
          | some (acta, reta) => some (Action.load path :: (actj ++ acta), reta + retj)
  else
    some ([], 0)

/-- The options `c2` that `handleDirectory` builds for a directory entry. -/
def entryOptions (env : Env) (c : cmdoptions) (entry : DirEntry) : cmdoptions :=
  { c with
    infile := some entry.path
    outfile := c.outfile.map (fun o => env.joinPath o (entry.filename ++ ".json"))
    analysisfile :=
      c.analysisfile.map (fun a => env.joinPath a (entry.stem ++ "-analysis.json")) }

/-- One iteration of the loop of `handleDirectory`, on the actions performed so
far; the value returned by `handleSingleFile` only decides about a warning. -/
def handleEntry (env : Env) (c : cmdoptions) (acc : Option (List Action))
    (entry : DirEntry) : Option (List Action) :=
  match acc with
  | none => none
  | some acts =>
    if env.getFileExt entry.filename = "slp" then
      match handleSingleFile env (entryOptions env c entry) with
      | none => none
      | some (acts2, _) => some (acts ++ acts2)
    else some acts

/-- The function `handleDirectory(c, debug)`. -/
def handleDirectory (env : Env) (c : cmdoptions) : Option (List Action × Int) :=
  if ¬ (c.outfile.isSome ∨ c.analysisfile.isSome) then
    some ([], -2)
  else
    let (act1, ok1) :=
      match c.outfile with
      | some o => ([Action.makeDirectory o], env.makeDirectoryIfNotExists o)
      | none => ([], true)
    if ¬ ok1 then some (act1, -2)
    else
      let (act2, ok2) :=
        match c.analysisfile with
        | some a => ([Action.makeDirectory a], env.makeDirectoryIfNotExists a)
        | none => ([], true)
      if ¬ ok2 then some (act1 ++ act2, -2)
      else
        match c.infile with
        | none => none
        | some infile =>
          match (env.entries infile).foldl (handleEntry env c) (some (act1 ++ act2)) with
          | none => none
          | some acts => some (acts, 0)

/-- The path of a `load` action. -/
def Action.loadPath : Action → Option String
  | .load path => some path
  | _ => none

/-- The actions of `handleJson` for the options `c`. -/
def jsonActions (c : cmdoptions) : List Action :=
  match c.outfile with
  | none => []
  | some o => if o = "-" then [] else [Action.parserSave o c.infile (!c.nodelta)]

/-- The actions of `handleAnalysis` for the options `c` and the path loaded. -/
def analysisActions (env : Env) (c : cmdoptions) (loaded : String) : List Action :=
  match c.analysisfile with
  | none => []
  | some f =>
    if (env.analyze loaded).success then
      if f = "-" then
        [Action.analyze loaded, Action.stdout ((env.analyze loaded).asJson ++ "\n")]
      else [Action.analyze loaded, Action.analysisSave c.outfile]
    else [Action.analyze loaded]

/-- An environment in which every load and every analysis succeeds and every
directory can be made; the directory `replays` holds two `.slp` files and a
text file. -/
def okEnv : Env where
  load := fun _ => true
  analyze := fun path => { success := true, asJson := "analysis of " ++ path }
  makeDirectoryIfNotExists := fun _ => true
  getFileExt := fun name => if name = "notes.txt" then "txt" else "slp"
  joinPath := fun a b => a ++ "/" ++ b
  entries := fun _ =>
    [{ path := "replays/a.slp", filename := "a.slp", stem := "a" },
     { path := "replays/notes.txt", filename := "notes.txt", stem := "notes" },
     { path := "replays/b.slp", filename := "b.slp", stem := "b" }]

/-- The environment `okEnv`, except that no file can be loaded. -/
def failingEnv : Env := { okEnv with load := fun _ => false }

/-- The options of `slippc -i game.slp -j out.json -a analysis.json`. -/
def bothOutputs : cmdoptions where
  dlevel := none
  infile := some "game.slp"
  outfile := some "out.json"
  analysisfile := some "analysis.json"
  nodelta := false
  dirmode := false
  debug := 0

/-- The options of `slippc -i game.slp -j -`. -/
def jsonToStdout : cmdoptions where
  dlevel := none
  infile := some "game.slp"
  outfile := some "-"
  analysisfile := none
  nodelta := false
  dirmode := false
  debug := 0

/-- The options of `slippc -i replays -j json`. -/
def directoryJson : cmdoptions where
  dlevel := none
  infile := some "replays"
  outfile := some "json"
  analysisfile := none
  nodelta := false
  dirmode := true
  debug := 0


/-! ## Sample replays -/

/-- A replay before frame allocation: slot 0 holds a human player of the paired
character `14`, slot 1 a human player of character `2`, every other slot is
empty (`player_type = 3`). -/
def sampleReplay : SlippiReplay where
  slippi_version_raw := 0x03090000
  start_time := "2024-05-01T10:00:00"
  first_frame := -123
  last_frame := 0
  frame_count := 0
  player := fun j =>
    if j = 0 then
      { player_type := 0, ext_char_id := 14, tag := "ann", tag_code := "ANN#1", frame := none }
    else if j = 1 then
      { player_type := 0, ext_char_id := 2, tag := "bob", tag_code := "BOB#2", frame := none }
    else
      { player_type := 3, ext_char_id := 26, tag := "", tag_code := "", frame := none }
  item := fun _ => { spawn_id := 0, type := 0, num_frames := 0, frame := none }
  platform_frames := []

/-- A replay whose slot 0 is empty (`player_type = 3`) although its character
is the paired character `14`; slot 1 holds a human player. -/
def emptyClimberReplay : SlippiReplay :=
  { sampleReplay with
    player := fun j =>
      if j = 0 then
        { player_type := 3, ext_char_id := 14, tag := "", tag_code := "", frame := none }
      else sampleReplay.player j }

/-- The replay `sampleReplay`, except that the tag of slot 0 holds a line end. -/
def newlineTagReplay : SlippiReplay :=
  { sampleReplay with
    player := fun j =>
      if j = 0 then
        { player_type := 0, ext_char_id := 14, tag := "an\nn", tag_code := "ANN#1",
          frame := none }
      else sampleReplay.player j }
/-- A stored frame whose members all derive from `k` and are non-zero. -/
def sampleFrame (k : Nat) : SlippiFrame where
  char_id := k + 1
  follower := true
  seed := k + 3
  pos_x_pre := k + 4
  pos_y_pre := k + 5
  face_dir_pre := k + 6
  joy_x := k + 7
  joy_y := k + 8
  c_x := k + 9
  c_y := k + 10
  trigger := k + 11
  buttons := k + 12
  phys_l := k + 13
  phys_r := k + 14
  ucf_x := k + 15
  percent_pre := k + 16
  action_pre := k + 17
  action_post := k + 18
  pos_x_post := k + 19
  pos_y_post := k + 20
  face_dir_post := k + 21
  percent_post := k + 22
  shield := k + 23
  hit_with := k + 24
  combo := k + 25
  hurt_by := k + 26
  stocks := k + 27
  action_fc := k + 28
  hitstun := k + 29
  airborne := true
  ground_id := k + 31
  jumps := k + 32
  l_cancel := k + 33
  alive := true
  hurtbox := k + 35
  self_air_x := k + 36
  self_air_y := k + 37
  attack_x := k + 38
  attack_y := k + 39
  self_grd_x := k + 40
  hitlag := k + 41
  anim_index := k + 42

/-- A decoded replay of version 3.6.0 with two frames: slots 0 and 1 hold human
players with two stored frames each, every other slot is empty. -/
def playedReplay : SlippiReplay where
  slippi_version_raw := 0x03060000
  start_time := "2024-05-01T10:00:00"
  first_frame := -123
  last_frame := -122
  frame_count := 2
  player := fun j =>
    if j = 0 then
      { player_type := 0, ext_char_id := 2, tag := "ann", tag_code := "ANN#1",
        frame := some [sampleFrame 100, sampleFrame 200] }
    else if j = 1 then
      { player_type := 0, ext_char_id := 9, tag := "bob", tag_code := "BOB#2",
        frame := some [sampleFrame 300, sampleFrame 400] }
    else
      { player_type := 3, ext_char_id := 26, tag := "", tag_code := "", frame := none }
  item := fun _ => { spawn_id := 0, type := 0, num_frames := 0, frame := none }
  platform_frames := []

/-- The stored frames of `playedReplay` in row order. -/
def playedFrames : List (Nat × Nat × SlippiFrame) :=
  [(0, 0, sampleFrame 100), (0, 1, sampleFrame 200), (1, 0, sampleFrame 300),
   (1, 1, sampleFrame 400)]

/-- A writer that always succeeds. -/
def okWriter : Writer := fun _ _ => .completed

/-- The result of exporting the player frames of `playedReplay` through `okWriter`. -/
def playedExport : ExportResult where
  output := some ("/tmp/frames.parquet", playerTable (playerColumns playedReplay playedFrames))
  status := .OK

/-- A stored item frame for game frame `g` whose other members derive from `k`
and are non-zero. -/
def sampleItemFrame (g : Int) (k : Nat) : SlippiItemFrame where
  frame := g
  state := k + 1
  face_dir := k + 2
  xvel := k + 3
  yvel := k + 4
  xpos := k + 5
  ypos := k + 6
  damage := k + 7
  expire := k + 8
  flags_1 := k + 9
  flags_2 := k + 10
  flags_3 := k + 11
  flags_4 := k + 12
  owner := 1

/-- A replay of version 3.0.0 for a pool of three item slots: slot 0 holds an
item seen on two frames, slot 1 carries the spawn id `4` of a slot never
filled, slot 2 has an id but no frames. -/
def itemReplay : SlippiReplay :=
  { sampleReplay with
    slippi_version_raw := 0x03000000
    item := fun i =>
      if i = 0 then
        { spawn_id := 0, type := 99, num_frames := 2,
          frame := some [sampleItemFrame (-123) 10, sampleItemFrame (-122) 20] }
      else if i = 1 then
        { spawn_id := 4, type := 0, num_frames := 0, frame := none }
      else
        { spawn_id := 2, type := 48, num_frames := 0, frame := none } }

/-- The stored item frames of `itemReplay` in row order. -/
def itemReplayFrames : List (Nat × Nat × SlippiItemFrame) :=
  [(0, 0, sampleItemFrame (-123) 10), (0, 1, sampleItemFrame (-122) 20)]

/-- The result of exporting the item frames of `itemReplay` through `okWriter`. -/
def itemReplayExport : ExportResult where
  output := some ("/tmp/items.parquet", itemTable (itemColumns itemReplay itemReplayFrames))
  status := .OK

/-- A replay for a pool of four item slots whose slot 0 stores the spawn id `4`,
equal to the size of the pool, together with one frame. -/
def boundaryItemReplay : SlippiReplay :=
  { sampleReplay with
    item := fun i =>
      if i = 0 then
        { spawn_id := 4, type := 99, num_frames := 1, frame := some [sampleItemFrame 5 10] }
      else
        { spawn_id := 5, type := 0, num_frames := 0, frame := none } }

/-- The replay `itemReplay` declared as version 3.9.0. -/
def itemReplayNew : SlippiReplay := { itemReplay with slippi_version_raw := 0x03090000 }

/-- A replay of a stage with moving platforms: three platform frames. -/
def platformReplay : SlippiReplay :=
  { sampleReplay with
    platform_frames :=
      [{ frame := 0, left_height := 11, right_height := 12 },
       { frame := 1, left_height := 21, right_height := 22 },
       { frame := 2, left_height := 31, right_height := 32 }] }


/-- A replay before frame allocation in which partner slot 5 is marked as a
human player although its primary slot 1 holds the unpaired character `2`. -/
def orphanPartnerReplay : SlippiReplay :=
  { sampleReplay with
    player := fun j =>
      if j = 5 then
        { player_type := 0, ext_char_id := 2, tag := "bob", tag_code := "BOB#2", frame := none }
      else sampleReplay.player j }

/-- A replay before frame allocation whose slot 0 holds a human player of the
paired character `14` and whose partner slot 4 is marked as a human player too;
slot 1 holds a human player of character `2`. -/
def climberReplay : SlippiReplay :=
  { sampleReplay with
    player := fun j =>
      if j = 4 then
        { player_type := 0, ext_char_id := 14, tag := "ann", tag_code := "ANN#1", frame := none }
      else sampleReplay.player j }

/-! ## Properties of `setFrames` -/

theorem setFramesBody_frame_count (C : Nat) (st : SetFramesState) (i : Nat) :
    (setFramesBody C st i).replay.frame_count = st.replay.frame_count := by
  simp only [setFramesBody, allocFrame]
  split_ifs <;> rfl

theorem setFramesBody_first_frame (C : Nat) (st : SetFramesState) (i : Nat) :
    (setFramesBody C st i).replay.first_frame = st.replay.first_frame := by
  simp only [setFramesBody, allocFrame]
  split_ifs <;> rfl

theorem setFramesBody_last_frame (C : Nat) (st : SetFramesState) (i : Nat) :
    (setFramesBody C st i).replay.last_frame = st.replay.last_frame := by
  simp only [setFramesBody, allocFrame]
  split_ifs <;> rfl

theorem setFramesBody_player_type (C : Nat) (st : SetFramesState) (i k : Nat) :
    ((setFramesBody C st i).replay.player k).player_type = (st.replay.player k).player_type := by
  simp only [setFramesBody, allocFrame]
  by_cases h3 : (st.replay.player i).player_type = 3
  · simp [h3]
  · by_cases hc : (st.replay.player i).ext_char_id = C
    · by_cases hk : k = i
      · subst hk; simp [h3, hc]
      · by_cases hk4 : k = i + 4
        · subst hk4; simp [h3, hc]
        · simp [h3, hc, hk, hk4]
    · by_cases hk : k = i
      · subst hk; simp [h3, hc]
      · simp [h3, hc, hk]

theorem setFramesBody_ext_char_id (C : Nat) (st : SetFramesState) (i k : Nat) :
    ((setFramesBody C st i).replay.player k).ext_char_id = (st.replay.player k).ext_char_id := by
  simp only [setFramesBody, allocFrame]
  by_cases h3 : (st.replay.player i).player_type = 3
  · simp [h3]
  · by_cases hc : (st.replay.player i).ext_char_id = C
    · by_cases hk : k = i
      · subst hk; simp [h3, hc]
      · by_cases hk4 : k = i + 4
        · subst hk4; simp [h3, hc]
        · simp [h3, hc, hk, hk4]
    · by_cases hk : k = i
      · subst hk; simp [h3, hc]
      · simp [h3, hc, hk]

/-- Effect of one loop iteration on the frame pointer of an arbitrary slot. -/
theorem setFramesBody_frame (C : Nat) (st : SetFramesState) (i k : Nat) :
    ((setFramesBody C st i).replay.player k).frame =
      if (st.replay.player i).player_type ≠ 3 ∧
          (k = i ∨ (k = i + 4 ∧ (st.replay.player i).ext_char_id = C)) then
        some (newFrames st.replay.frame_count)
      else (st.replay.player k).frame := by
  simp only [setFramesBody, allocFrame]
  by_cases h3 : (st.replay.player i).player_type = 3
  · simp [h3]
  · by_cases hc : (st.replay.player i).ext_char_id = C
    · by_cases hk : k = i
      · subst hk; simp [h3, hc]
      · by_cases hk4 : k = i + 4
        · subst hk4; simp [h3, hc]
        · simp [h3, hc, hk, hk4]
    · by_cases hk : k = i
      · subst hk; simp [h3, hc]
      · simp [h3, hc, hk]

/-- Effect of one loop iteration on the allocation record. -/
theorem setFramesBody_allocated (C : Nat) (st : SetFramesState) (i : Nat) :
    (setFramesBody C st i).allocated =
      st.allocated ++
        (if (st.replay.player i).player_type ≠ 3 then
          (if (st.replay.player i).ext_char_id = C then [i, i + 4] else [i])
         else []) := by
  simp only [setFramesBody, allocFrame]
  by_cases h3 : (st.replay.player i).player_type = 3
  · simp [h3]
  · by_cases hc : (st.replay.player i).ext_char_id = C <;> simp [h3, hc]


/-- The replay after the two scalar assignments of `setFrames`, before its loop. -/
theorem setFramesRun_unroll (C : Nat) (s : SlippiReplay) (m : Int) :
    setFramesRun C s m =
      setFramesBody C (setFramesBody C (setFramesBody C (setFramesBody C
        { replay := { s with last_frame := m, frame_count := toUInt32 (m - s.first_frame) }
          allocated := [] } 0) 1) 2) 3 := rfl

theorem setFramesRun_frame_count (C : Nat) (s : SlippiReplay) (m : Int) :
    (setFramesRun C s m).replay.frame_count = toUInt32 (m - s.first_frame) := by
  simp only [setFramesRun_unroll, setFramesBody_frame_count]

theorem setFramesRun_first_frame (C : Nat) (s : SlippiReplay) (m : Int) :
    (setFramesRun C s m).replay.first_frame = s.first_frame := by
  simp only [setFramesRun_unroll, setFramesBody_first_frame]

theorem setFramesRun_last_frame (C : Nat) (s : SlippiReplay) (m : Int) :
    (setFramesRun C s m).replay.last_frame = m := by
  simp only [setFramesRun_unroll, setFramesBody_last_frame]

theorem setFramesRun_player_type (C : Nat) (s : SlippiReplay) (m : Int) (k : Nat) :
    ((setFramesRun C s m).replay.player k).player_type = (s.player k).player_type := by
  simp only [setFramesRun_unroll, setFramesBody_player_type]

theorem setFramesRun_ext_char_id (C : Nat) (s : SlippiReplay) (m : Int) (k : Nat) :
    ((setFramesRun C s m).replay.player k).ext_char_id = (s.player k).ext_char_id := by
  simp only [setFramesRun_unroll, setFramesBody_ext_char_id]

/-- Frame pointer of every slot after `setFrames`. -/
theorem setFramesRun_frame (C : Nat) (s : SlippiReplay) (m : Int) (k : Nat) :
    ((setFramesRun C s m).replay.player k).frame =
      if k < 4 ∧ (s.player k).player_type ≠ 3 then
        some (newFrames (toUInt32 (m - s.first_frame)))
      else if 4 ≤ k ∧ k < 8 ∧ (s.player (k - 4)).player_type ≠ 3 ∧
          (s.player (k - 4)).ext_char_id = C then
        some (newFrames (toUInt32 (m - s.first_frame)))
      else (s.player k).frame := by
  simp only [setFramesRun_unroll, setFramesBody_frame, setFramesBody_frame_count,
    setFramesBody_player_type, setFramesBody_ext_char_id]
  rcases Nat.lt_or_ge k 8 with hk | hk
  · interval_cases k <;> simp
  · have h0 : k ≠ 0 := by omega
    have h1 : k ≠ 1 := by omega
    have h2 : k ≠ 2 := by omega
    have h3 : k ≠ 3 := by omega
    have h4 : k ≠ 4 := by omega
    have h5 : k ≠ 5 := by omega
    have h6 : k ≠ 6 := by omega
    have h7 : k ≠ 7 := by omega
    have h8 : ¬ k < 4 := by omega
    have h9 : ¬ k < 8 := by omega
    simp [h0, h1, h2, h3, h4, h5, h6, h7, h8, h9]

/-- Allocation record of `setFrames`: the `new` statements executed, in order. -/
theorem setFramesRun_allocated (C : Nat) (s : SlippiReplay) (m : Int) :
    (setFramesRun C s m).allocated =
      (List.range 4).flatMap (fun i =>
        if (s.player i).player_type ≠ 3 then
          (if (s.player i).ext_char_id = C then [i, i + 4] else [i])
        else []) := by
  simp only [setFramesRun_unroll, setFramesBody_allocated, setFramesBody_player_type,
    setFramesBody_ext_char_id]
  simp [List.range, List.range.loop, List.flatMap]


/-- Membership in the allocation record of `setFrames`. -/
theorem mem_setFramesRun_allocated (C : Nat) (s : SlippiReplay) (m : Int) (k : Nat) :
    k ∈ (setFramesRun C s m).allocated ↔
      (k < 4 ∧ (s.player k).player_type ≠ 3) ∨
      (4 ≤ k ∧ k < 8 ∧ (s.player (k - 4)).player_type ≠ 3 ∧
        (s.player (k - 4)).ext_char_id = C) := by
  rw [setFramesRun_allocated]
  simp only [List.mem_flatMap, List.mem_range]
  constructor
  · rintro ⟨j, hj, h⟩
    by_cases h3 : (s.player j).player_type = 3
    · simp [h3] at h
    · by_cases hc : (s.player j).ext_char_id = C
      · simp only [h3, hc, ne_eq, not_false_eq_true, if_true, List.mem_cons,
          List.mem_singleton, List.not_mem_nil, or_false] at h
        rcases h with h | h
        · left; subst h; exact ⟨hj, h3⟩
        · right; subst h
          have : j + 4 - 4 = j := by omega
          rw [this]
          exact ⟨by omega, by omega, h3, hc⟩
      · simp only [h3, hc, ne_eq, not_false_eq_true, if_true, if_false,
          List.mem_singleton] at h
        left; subst h; exact ⟨hj, h3⟩
  · rintro (⟨hk, h3⟩ | ⟨h4, h8, h3, hc⟩)
    · refine ⟨k, hk, ?_⟩
      by_cases hc : (s.player k).ext_char_id = C <;> simp [h3, hc]
    · refine ⟨k - 4, by omega, ?_⟩
      have : k - 4 + 4 = k := by omega
      simp [h3, hc, this]


/-! ## Claims on `setFrames` -/

/-- C1, as stated, fails: with `first_frame = -123` and `max_frames = 100` the
call leaves `frame_count = 223`, whereas `last_frame - first_frame + 1 = 224`. -/
theorem setFrames_count_plus_one_fails :
    ¬ ((setFrames 14 sampleReplay 100).last_frame = 100 ∧
        ((setFrames 14 sampleReplay 100).frame_count : Int) =
          (setFrames 14 sampleReplay 100).last_frame -
            (setFrames 14 sampleReplay 100).first_frame + 1) := by
  decide

/-- C1, amended: after `setFrames(max_frames)` we have `last_frame = max_frames`,
`first_frame` is untouched, and `frame_count` is `last_frame - first_frame`
(without the `+ 1`), stored as an unsigned 32-bit value. -/
theorem setFrames_frame_fields (CLIMBER : Nat) (s : SlippiReplay) (max_frames : Int) :
    (setFrames CLIMBER s max_frames).last_frame = max_frames ∧
    (setFrames CLIMBER s max_frames).first_frame = s.first_frame ∧
    (setFrames CLIMBER s max_frames).frame_count =
      toUInt32 ((setFrames CLIMBER s max_frames).last_frame -
        (setFrames CLIMBER s max_frames).first_frame) := by
  simp only [setFrames, setFramesRun_last_frame, setFramesRun_first_frame,
    setFramesRun_frame_count, and_self]

/-- C2: after `setFrames`, every primary slot `i < 4` that is not empty owns a
frame array of exactly `frame_count` entries, and every partner slot `i + 4`
for which `setFrames` executed an allocation owns an array of the same length
as the array of its primary slot `i`. -/
theorem setFrames_frame_lengths (CLIMBER : Nat) (s : SlippiReplay) (max_frames : Int)
    (i : Nat) (hi : i < 4) :
    (((setFrames CLIMBER s max_frames).player i).player_type ≠ 3 →
      ((setFrames CLIMBER s max_frames).player i).frame.map List.length =
        some (setFrames CLIMBER s max_frames).frame_count) ∧
    (i + 4 ∈ (setFramesRun CLIMBER s max_frames).allocated →
      (∃ a b, ((setFrames CLIMBER s max_frames).player i).frame = some a ∧
        ((setFrames CLIMBER s max_frames).player (i + 4)).frame = some b ∧
        b.length = a.length ∧ a.length = (setFrames CLIMBER s max_frames).frame_count)) := by
  have hsub : i + 4 - 4 = i := by omega
  have h48 : ¬ i + 4 < 4 := by omega
  constructor
  · intro h3
    simp only [setFrames, setFramesRun_player_type] at h3
    simp [setFrames, setFramesRun_frame, setFramesRun_frame_count, hi, h3, newFrames]
  · intro hmem
    rw [mem_setFramesRun_allocated] at hmem
    rcases hmem with ⟨h, _⟩ | ⟨_, _, h3, hc⟩
    · omega
    · rw [hsub] at h3 hc
      refine ⟨newFrames (toUInt32 (max_frames - s.first_frame)),
        newFrames (toUInt32 (max_frames - s.first_frame)), ?_, ?_, rfl, ?_⟩
      · simp [setFrames, setFramesRun_frame, hi, h3]
      · simp [setFrames, setFramesRun_frame, h48, hsub, h3, hc]; omega
      · simp [setFrames, setFramesRun_frame_count, newFrames]

/-- Witness for C2 on `sampleReplay`: slot 0 is active and paired, so slots 0
and 4 both own `223` frames after `setFrames 100`. -/
theorem setFrames_frame_lengths_witness :
    ((setFrames 14 sampleReplay 100).player 0).frame.map List.length = some 223 ∧
    (∃ a b, ((setFrames 14 sampleReplay 100).player 0).frame = some a ∧
        ((setFrames 14 sampleReplay 100).player (0 + 4)).frame = some b ∧
        b.length = a.length ∧ a.length = (setFrames 14 sampleReplay 100).frame_count) :=
  ⟨(setFrames_frame_lengths 14 sampleReplay 100 0 (by decide)).1 (by decide),
   (setFrames_frame_lengths 14 sampleReplay 100 0 (by decide)).2 (by decide)⟩

/-- C3: for a primary slot `i < 4` that is empty (`player_type = 3`),
`setFrames` executes no allocation for slot `i` and leaves its frame pointer as
it was before the call. -/
theorem setFrames_empty_slot_untouched (CLIMBER : Nat) (s : SlippiReplay) (max_frames : Int)
    (i : Nat) (hi : i < 4) (hempty : (s.player i).player_type = 3) :
    i ∉ (setFramesRun CLIMBER s max_frames).allocated ∧
    ((setFrames CLIMBER s max_frames).player i).frame = (s.player i).frame := by
  constructor
  · rw [mem_setFramesRun_allocated]
    rintro (⟨_, h⟩ | ⟨h, _⟩)
    · exact h hempty
    · omega
  · have h4 : ¬ 4 ≤ i := by omega
    simp [setFrames, setFramesRun_frame, hempty, h4]

/-- Witness for C3 on `sampleReplay`, whose slot 2 is empty. -/
theorem setFrames_empty_slot_untouched_witness :
    2 ∉ (setFramesRun 14 sampleReplay 100).allocated ∧
    ((setFrames 14 sampleReplay 100).player 2).frame = (sampleReplay.player 2).frame :=
  setFrames_empty_slot_untouched 14 sampleReplay 100 2 (by decide) (by decide)

/-- C4, as stated, fails: in `emptyClimberReplay` slot 0 has the paired
character, yet `setFrames` allocates nothing for partner slot 4, because slot 0
is empty. -/
theorem setFrames_partner_iff_climber_fails :
    ¬ (4 ∈ (setFramesRun 14 emptyClimberReplay 100).allocated ↔
        (emptyClimberReplay.player 0).ext_char_id = 14) := by
  decide

/-- C4, amended: for `i < 4`, `setFrames` allocates frame storage for partner
slot `i + 4` exactly when primary slot `i` is not empty and its character is
the paired character; in that case the partner receives a fresh array of
`frame_count` entries, and otherwise its frame pointer is left unchanged. -/
theorem setFrames_partner_allocation (CLIMBER : Nat) (s : SlippiReplay) (max_frames : Int)
    (i : Nat) (hi : i < 4) :
    (i + 4 ∈ (setFramesRun CLIMBER s max_frames).allocated ↔
      ((s.player i).player_type ≠ 3 ∧ (s.player i).ext_char_id = CLIMBER)) ∧
    ((s.player i).player_type ≠ 3 ∧ (s.player i).ext_char_id = CLIMBER →
      ((setFrames CLIMBER s max_frames).player (i + 4)).frame =
        some (newFrames (setFrames CLIMBER s max_frames).frame_count)) ∧
    (¬ ((s.player i).player_type ≠ 3 ∧ (s.player i).ext_char_id = CLIMBER) →
      ((setFrames CLIMBER s max_frames).player (i + 4)).frame = (s.player (i + 4)).frame) := by
  have hsub : i + 4 - 4 = i := by omega
  have h48 : ¬ i + 4 < 4 := by omega
  have h8 : i + 4 < 8 := by omega
  refine ⟨?_, ?_, ?_⟩
  · rw [mem_setFramesRun_allocated, hsub]
    constructor
    · rintro (⟨h, _⟩ | ⟨_, _, h3, hc⟩)
      · omega
      · exact ⟨h3, hc⟩
    · rintro ⟨h3, hc⟩
      exact Or.inr ⟨by omega, h8, h3, hc⟩
  · rintro ⟨h3, hc⟩
    simp [setFrames, setFramesRun_frame, setFramesRun_frame_count, h48, hsub, h3, hc, h8]
  · intro hn
    simp only [setFrames, setFramesRun_frame, hsub]
    rw [if_neg (fun h => h48 h.1), if_neg (fun h => hn ⟨h.2.2.1, h.2.2.2⟩)]

/-- Witness for C4 on `sampleReplay`: slot 0 is an active paired character and
slot 1 an active unpaired one. -/
theorem setFrames_partner_allocation_witness :
    (4 ∈ (setFramesRun 14 sampleReplay 100).allocated) ∧
    (5 ∉ (setFramesRun 14 sampleReplay 100).allocated) ∧
    ((setFrames 14 sampleReplay 100).player (1 + 4)).frame = (sampleReplay.player (1 + 4)).frame :=
  ⟨(setFrames_partner_allocation 14 sampleReplay 100 0 (by decide)).1.2 (by decide),
   fun h => absurd ((setFrames_partner_allocation 14 sampleReplay 100 1 (by decide)).1.1 h)
     (by decide),
   (setFrames_partner_allocation 14 sampleReplay 100 1 (by decide)).2.2 (by decide)⟩


/-! ## The loops of `playerFramesAsParquet` -/

theorem playerColumns_nil (s : SlippiReplay) : playerColumns s [] = PlayerBuilders.empty := rfl

/-- Appending the row of `(p, f, fr)` to the columns of `es` gives the columns
of `es ++ [(p, f, fr)]`. -/
theorem appendPlayerRow_playerColumns (s : SlippiReplay) (p f : Nat) (fr : SlippiFrame)
    (es : List (Nat × Nat × SlippiFrame)) :
    appendPlayerRow s p f fr (playerColumns s es) = playerColumns s (es ++ [(p, f, fr)]) := by
  cases h1 : MIN_VERSION (slippi_maj s) (slippi_min s) (slippi_rev s) 2 0 0 <;>
  cases h2 : MIN_VERSION (slippi_maj s) (slippi_min s) (slippi_rev s) 2 1 0 <;>
  cases h3 : MIN_VERSION (slippi_maj s) (slippi_min s) (slippi_rev s) 3 5 0 <;>
  cases h4 : MIN_VERSION (slippi_maj s) (slippi_min s) (slippi_rev s) 3 8 0 <;>
  cases h5 : MIN_VERSION (slippi_maj s) (slippi_min s) (slippi_rev s) 3 11 0 <;>
  simp only [appendPlayerRow, appendPlayerPlain, appendPlayerGate_2_0_0, appendPlayerGate_2_1_0,
    appendPlayerGate_3_5_0, appendPlayerGate_3_8_0, appendPlayerGate_3_11_0, playerColumns,
    UInt8Builder.Append, UInt16Builder.Append, UInt32Builder.Append, FloatBuilder.Append,
    BooleanBuilder.Append, StringBuilder.Append, List.map_append, List.map_cons, List.map_nil,
    h1, h2, h3, h4, h5, if_true, if_false, Bool.false_eq_true]

/-- A `foldlM` in `Option` whose step reads one item and pushes it, started on
the accumulator of `es`, reads all items and yields the accumulator of
`es ++` the items read. -/
theorem foldlM_read_push {α ι β : Type} (read : ι → Option α) (acc : List α → β)
    (step : β → ι → Option β)
    (hnone : ∀ es i, read i = none → step (acc es) i = none)
    (hsome : ∀ es i a, read i = some a → step (acc es) i = some (acc (es ++ [a])))
    (is : List ι) (es : List α) :
    is.foldlM step (acc es) = (is.mapM read).map (fun xs => acc (es ++ xs)) := by
  induction is generalizing es with
  | nil =>
    show some (acc es) = some (acc (es ++ []))
    rw [List.append_nil]
  | cons i is ih =>
    rw [List.foldlM_cons, List.mapM_cons]
    cases h : read i with
    | none => rw [hnone es i h]; rfl
    | some a =>
      rw [hsome es i a h]
      simp only [Option.some_bind, Option.bind_eq_bind, ih, List.append_assoc,
        List.singleton_append]
      cases is.mapM read <;> rfl

/-- The inner loop of `playerFramesAsParquet`, started on the columns of `es`. -/
theorem playerFrameStep_foldlM (s : SlippiReplay) (p : Nat) (fs : List Nat)
    (es : List (Nat × Nat × SlippiFrame)) :
    fs.foldlM (playerFrameStep s p) (playerColumns s es) =
      (fs.mapM (fun f => storedFrame s (p, f))).map (fun xs => playerColumns s (es ++ xs)) := by
  apply foldlM_read_push (fun f => storedFrame s (p, f)) (playerColumns s) (playerFrameStep s p)
  · intro es f h
    simp only [storedFrame, Option.map_eq_none'] at h
    simp [playerFrameStep, h]
  · intro es f a h
    simp only [storedFrame, Option.map_eq_some'] at h
    obtain ⟨fr, hfr, rfl⟩ := h
    simp [playerFrameStep, hfr, appendPlayerRow_playerColumns]

theorem mapM_option_map {α β γ : Type} (g : α → β) (f : β → Option γ) (l : List α) :
    (l.map g).mapM f = l.mapM (fun a => f (g a)) := by
  induction l with
  | nil => rfl
  | cons a l ih => simp only [List.map_cons, List.mapM_cons, ih]

theorem filter_pairs_of_true {p : Nat} (act : Nat × Nat → Bool) (fs : List Nat)
    (h : ∀ f, act (p, f) = true) :
    (fs.map (fun f => (p, f))).filter act = fs.map (fun f => (p, f)) := by
  apply List.filter_eq_self.2
  intro a ha
  obtain ⟨f, _, rfl⟩ := List.mem_map.1 ha
  exact h f

theorem filter_pairs_of_false {p : Nat} (act : Nat × Nat → Bool) (fs : List Nat)
    (h : ∀ f, act (p, f) = false) :
    (fs.map (fun f => (p, f))).filter act = [] := by
  apply List.filter_eq_nil_iff.2
  intro a ha
  obtain ⟨f, _, rfl⟩ := List.mem_map.1 ha
  simp [h f]

theorem product_cons_pairs (p : Nat) (ps fs : List Nat) :
    List.product (p :: ps) fs = fs.map (fun f => (p, f)) ++ List.product ps fs :=
  List.product_cons p ps fs

/-- The outer loop of `playerFramesAsParquet` over the slots `ps`, started on
the columns of `es`. -/
theorem playerSlotStep_foldlM (s : SlippiReplay) (ps : List Nat)
    (es : List (Nat × Nat × SlippiFrame)) :
    ps.foldlM (playerSlotStep s) (playerColumns s es) =
      (((List.product ps (List.range s.frame_count)).filter
          (fun pf => decide ((s.player pf.1).player_type ≠ 3))).mapM (storedFrame s)).map
        (fun xs => playerColumns s (es ++ xs)) := by
  induction ps generalizing es with
  | nil =>
    show some (playerColumns s es) = some (playerColumns s (es ++ []))
    rw [List.append_nil]
  | cons p ps ih =>
    rw [List.foldlM_cons, product_cons_pairs, List.filter_append, List.mapM_append]
    by_cases h3 : (s.player p).player_type = 3
    · rw [filter_pairs_of_false _ _ (by intro f; simp [h3])]
      simp only [playerSlotStep, h3, ne_eq, not_true_eq_false, if_false, Option.some_bind,
        Option.bind_eq_bind, ih, List.mapM_nil, Option.pure_def, List.nil_append]
      cases (List.mapM (storedFrame s) _) <;> rfl
    · rw [filter_pairs_of_true _ _ (by intro f; simp [h3]), mapM_option_map]
      simp only [playerSlotStep, h3, ne_eq, not_false_eq_true, if_true, playerFrameStep_foldlM]
      cases h : (List.range s.frame_count).mapM (fun f => storedFrame s (p, f)) with
      | none => rfl
      | some xs =>
        simp only [Option.map_some', Option.some_bind, Option.bind_eq_bind, ih,
          List.append_assoc]
        cases (List.mapM (storedFrame s) _) <;> rfl

/-- The builders after the loops of `playerFramesAsParquet` are defined exactly
when every stored frame of an active pair can be read, and then they are the
columns of those stored frames. -/
theorem playerFrameBuilders_eq (s : SlippiReplay) :
    playerFrameBuilders s = (storedFrames s).map (playerColumns s) := by
  have h := playerSlotStep_foldlM s (List.range 8) []
  rw [playerColumns_nil] at h
  simpa [playerFrameBuilders, storedFrames, activePairs] using h

/-- A `mapM` in `Option` succeeds when every element can be read. -/
theorem mapM_option_isSome {α β : Type} (f : α → Option β) (l : List α)
    (h : ∀ a ∈ l, (f a).isSome = true) : ∃ ys, l.mapM f = some ys := by
  induction l with
  | nil => exact ⟨[], rfl⟩
  | cons a l ih =>
    obtain ⟨ys, hys⟩ := ih (fun x hx => h x (List.mem_cons_of_mem a hx))
    obtain ⟨y, hy⟩ := Option.isSome_iff_exists.1 (h a (List.mem_cons_self a l))
    exact ⟨y :: ys, by rw [List.mapM_cons, hy, hys]; rfl⟩

/-- The stored frames read for a list of pairs carry exactly those pairs. -/
theorem mapM_storedFrame_pairs (s : SlippiReplay) (l : List (Nat × Nat))
    (es : List (Nat × Nat × SlippiFrame)) (h : l.mapM (storedFrame s) = some es) :
    es.map (fun e => (e.1, e.2.1)) = l := by
  induction l generalizing es with
  | nil =>
    rw [List.mapM_nil] at h
    cases h
    rfl
  | cons a l ih =>
    rw [List.mapM_cons] at h
    cases h1 : storedFrame s a with
    | none =>
      simp only [h1, Option.bind_eq_bind, Option.none_bind, reduceCtorEq] at h
    | some e =>
      cases h2 : l.mapM (storedFrame s) with
      | none =>
        simp only [h1, h2, Option.bind_eq_bind, Option.none_bind, Option.some_bind,
          reduceCtorEq] at h
      | some es1 =>
        simp only [h1, h2, Option.some_bind, Option.bind_eq_bind, Option.pure_def,
          Option.some.injEq] at h
        subst h
        simp only [storedFrame, Option.map_eq_some'] at h1
        obtain ⟨fr, _, rfl⟩ := h1
        simp [ih es1 h2]

/-- Pairs of a product of two strictly increasing lists are strictly increasing
in the lexicographic order. -/
theorem pairwise_lex_product (ps fs : List Nat) (hp : ps.Pairwise (· < ·))
    (hf : fs.Pairwise (· < ·)) :
    (List.product ps fs).Pairwise (fun a b => a.1 < b.1 ∨ (a.1 = b.1 ∧ a.2 < b.2)) := by
  induction ps with
  | nil => exact List.Pairwise.nil
  | cons p ps ih =>
    rw [product_cons_pairs, List.pairwise_append]
    rw [List.pairwise_cons] at hp
    refine ⟨?_, ih hp.2, ?_⟩
    · rw [List.pairwise_map]
      exact hf.imp (fun h => Or.inr ⟨rfl, h⟩)
    · intro a ha b hb
      obtain ⟨f, _, rfl⟩ := List.mem_map.1 ha
      obtain ⟨q, g⟩ := b
      have hq : q ∈ ps := (List.pair_mem_product.1 hb).1
      exact Or.inl (hp.1 q hq)

theorem activePairs_pairwise (s : SlippiReplay) :
    (activePairs s).Pairwise (fun a b => a.1 < b.1 ∨ (a.1 = b.1 ∧ a.2 < b.2)) :=
  (pairwise_lex_product _ _ (List.pairwise_lt_range 8)
    (List.pairwise_lt_range s.frame_count)).filter _

theorem activePairs_nodup (s : SlippiReplay) : (activePairs s).Nodup := by
  refine (activePairs_pairwise s).imp ?_
  intro a b h hab
  subst hab
  rcases h with h | ⟨_, h⟩ <;> omega

theorem mem_activePairs (s : SlippiReplay) (p f : Nat) :
    (p, f) ∈ activePairs s ↔ p < 8 ∧ (s.player p).player_type ≠ 3 ∧ f < s.frame_count := by
  simp only [activePairs, List.mem_filter, List.pair_mem_product, List.mem_range,
    decide_eq_true_eq]
  tauto

theorem storedFrames_pairs (s : SlippiReplay) (es : List (Nat × Nat × SlippiFrame))
    (h : storedFrames s = some es) :
    List.zip (playerColumns s es).player_index_b.values
      (playerColumns s es).frame_number_b.values = activePairs s := by
  have := mapM_storedFrame_pairs s (activePairs s) es h
  simpa [playerColumns, List.zip_map'] using this

theorem storedFrames_length (s : SlippiReplay) (es : List (Nat × Nat × SlippiFrame))
    (h : storedFrames s = some es) : es.length = (activePairs s).length := by
  rw [← mapM_storedFrame_pairs s (activePairs s) es h, List.length_map]

/-- Every array of the player table has one value per element of `es`. -/
theorem playerArrays_length (s : SlippiReplay) (es : List (Nat × Nat × SlippiFrame)) :
    ∀ a ∈ playerArrays (playerColumns s es), a.length = es.length := by
  intro a ha
  simp only [playerArrays, List.mem_cons, List.mem_singleton, List.not_mem_nil, or_false] at ha
  rcases ha with h | h | h | h | h | h | h | h | h | h | h | h | h | h | h | h | h | h | h | h |
    h | h | h | h | h | h | h | h | h | h | h | h | h | h | h | h | h | h | h | h | h | h | h |
    h | h | h <;>
  · subst h
    simp [playerColumns, UInt8Builder.Finish, UInt16Builder.Finish, UInt32Builder.Finish,
      FloatBuilder.Finish, BooleanBuilder.Finish, StringBuilder.Finish, ArrowArray.length]

/-! ## The version triple and `MIN_VERSION` -/

theorem slippi_maj_eq (s : SlippiReplay) :
    slippi_maj s = s.slippi_version_raw / 2 ^ 24 % 256 := by
  unfold slippi_maj
  rw [Nat.shiftRight_eq_div_pow]
  exact Nat.and_pow_two_sub_one_eq_mod _ 8

theorem slippi_min_eq (s : SlippiReplay) :
    slippi_min s = s.slippi_version_raw / 2 ^ 16 % 256 := by
  unfold slippi_min
  rw [Nat.shiftRight_eq_div_pow]
  exact Nat.and_pow_two_sub_one_eq_mod _ 8

/-- A threshold with revision 0 is missed exactly when the major number is
smaller, or equal with a smaller minor number. -/
theorem MIN_VERSION_eq_false (a b c M m : Nat) :
    MIN_VERSION a b c M m 0 = false ↔ a < M ∨ (a = M ∧ b < m) := by
  unfold MIN_VERSION
  rw [decide_eq_false_iff_not]
  omega

/-- A threshold with revision 0 is met exactly when the major number is larger,
or equal with a minor number at least as large. -/
theorem MIN_VERSION_eq_true (a b c M m : Nat) :
    MIN_VERSION a b c M m 0 = true ↔ M < a ∨ (a = M ∧ m ≤ b) := by
  unfold MIN_VERSION
  rw [decide_eq_true_eq]
  omega

/-- The gate `MIN_VERSION(M, m, 0)` of an exporter, read off the bytes of
`slippi_version_raw`. -/
theorem gate_closed (s : SlippiReplay) (M m : Nat)
    (h : s.slippi_version_raw / 2 ^ 24 % 256 < M ∨
      (s.slippi_version_raw / 2 ^ 24 % 256 = M ∧ s.slippi_version_raw / 2 ^ 16 % 256 < m)) :
    MIN_VERSION (slippi_maj s) (slippi_min s) (slippi_rev s) M m 0 = false := by
  rw [MIN_VERSION_eq_false, slippi_maj_eq, slippi_min_eq]
  exact h

theorem gate_open (s : SlippiReplay) (M m : Nat)
    (h : M < s.slippi_version_raw / 2 ^ 24 % 256 ∨
      (s.slippi_version_raw / 2 ^ 24 % 256 = M ∧ m ≤ s.slippi_version_raw / 2 ^ 16 % 256)) :
    MIN_VERSION (slippi_maj s) (slippi_min s) (slippi_rev s) M m 0 = true := by
  rw [MIN_VERSION_eq_true, slippi_maj_eq, slippi_min_eq]
  exact h

/-! ## Claims on `playerFramesAsParquet` -/

/-- Whenever `playerFramesAsParquet` returns, the stored frames of all active
pairs were readable, and the table handed to the writer is made from the
columns of those frames. -/
theorem playerFramesAsParquet_some (write : Writer) (s : SlippiReplay) (r : ExportResult)
    (h : playerFramesAsParquet write s = some r) :
    ∃ es, storedFrames s = some es ∧ playerFrameBuilders s = some (playerColumns s es) ∧
      r.output = some ("/tmp/frames.parquet", playerTable (playerColumns s es)) ∧
      r.status =
        statusAfterWrite (write "/tmp/frames.parquet" (playerTable (playerColumns s es))) := by
  unfold playerFramesAsParquet at h
  rw [playerFrameBuilders_eq] at h ⊢
  cases hes : storedFrames s with
  | none => rw [hes] at h; simp at h
  | some es =>
    rw [hes] at h
    simp only [Option.map_some', Option.some.injEq] at h
    subst h
    exact ⟨es, rfl, rfl, rfl, rfl⟩

/-- The function `playerFramesAsParquet` returns as soon as every stored frame of an active
pair can be read. -/
theorem playerFramesAsParquet_isSome (write : Writer) (s : SlippiReplay)
    (es : List (Nat × Nat × SlippiFrame)) (h : storedFrames s = some es) :
    playerFramesAsParquet write s =
      some { output := some ("/tmp/frames.parquet", playerTable (playerColumns s es))
             status := statusAfterWrite
               (write "/tmp/frames.parquet" (playerTable (playerColumns s es))) } := by
  unfold playerFramesAsParquet
  rw [playerFrameBuilders_eq, h]
  rfl

theorem playedReplay_storedFrames : storedFrames playedReplay = some playedFrames := rfl

theorem playedReplay_export : playerFramesAsParquet okWriter playedReplay = some playedExport :=
  playerFramesAsParquet_isSome okWriter playedReplay playedFrames playedReplay_storedFrames

/-- C5: let `maj` and `min` be bits 31-24 and 23-16 of `slippi_version_raw`; the
revision, bits 15-8, cannot change a comparison with a threshold of revision 0.
In every export of `playerFramesAsParquet`, with `es` the stored frames behind
the emitted rows (one per row, in row order) and `b` the builders of the table,
each version-gated column holds its default in every row when `(maj, min)` is
lexicographically below the introduction version of the column, whatever the
stored frames hold, and holds the stored member in every row when it is at or
above it: `hitstun`, `airborne`, `ground_id`, `jumps`, `l_cancel`, `alive` at
2.0.0, `hurtbox` at 2.1.0, `self_air_x`, `self_air_y`, `attack_x`, `attack_y`,
`self_grd_x` at 3.5.0, `hitlag` at 3.8.0 and `anim_index` at 3.11.0. -/
theorem playerFrames_version_gates (write : Writer) (s : SlippiReplay) (r : ExportResult)
    (maj min : Nat) (hmaj : maj = s.slippi_version_raw / 2 ^ 24 % 256)
    (hmin : min = s.slippi_version_raw / 2 ^ 16 % 256)
    (h : playerFramesAsParquet write s = some r) :
    ∃ es b, storedFrames s = some es ∧ playerFrameBuilders s = some b ∧
      r.output = some ("/tmp/frames.parquet", playerTable b) ∧
      (maj < 2 ∨ (maj = 2 ∧ min < 0) →
        b.hitstun_b.values = es.map (fun _ => 0) ∧
        b.airborne_b.values = es.map (fun _ => false) ∧
        b.ground_id_b.values = es.map (fun _ => 0) ∧
        b.jumps_b.values = es.map (fun _ => 0) ∧
        b.l_cancel_b.values = es.map (fun _ => 0) ∧
        b.alive_b.values = es.map (fun _ => false)) ∧
      (2 < maj ∨ (maj = 2 ∧ 0 ≤ min) →
        b.hitstun_b.values = es.map (fun e => e.2.2.hitstun) ∧
        b.airborne_b.values = es.map (fun e => e.2.2.airborne) ∧
        b.ground_id_b.values = es.map (fun e => e.2.2.ground_id) ∧
        b.jumps_b.values = es.map (fun e => e.2.2.jumps) ∧
        b.l_cancel_b.values = es.map (fun e => e.2.2.l_cancel) ∧
        b.alive_b.values = es.map (fun e => e.2.2.alive)) ∧
      (maj < 2 ∨ (maj = 2 ∧ min < 1) →
        b.hurtbox_b.values = es.map (fun _ => 0)) ∧
      (2 < maj ∨ (maj = 2 ∧ 1 ≤ min) →
        b.hurtbox_b.values = es.map (fun e => e.2.2.hurtbox)) ∧
      (maj < 3 ∨ (maj = 3 ∧ min < 5) →
        b.self_air_x_b.values = es.map (fun _ => 0) ∧
        b.self_air_y_b.values = es.map (fun _ => 0) ∧
        b.attack_x_b.values = es.map (fun _ => 0) ∧
        b.attack_y_b.values = es.map (fun _ => 0) ∧
        b.self_grd_x_b.values = es.map (fun _ => 0)) ∧
      (3 < maj ∨ (maj = 3 ∧ 5 ≤ min) →
        b.self_air_x_b.values = es.map (fun e => e.2.2.self_air_x) ∧
        b.self_air_y_b.values = es.map (fun e => e.2.2.self_air_y) ∧
        b.attack_x_b.values = es.map (fun e => e.2.2.attack_x) ∧
        b.attack_y_b.values = es.map (fun e => e.2.2.attack_y) ∧
        b.self_grd_x_b.values = es.map (fun e => e.2.2.self_grd_x)) ∧
      (maj < 3 ∨ (maj = 3 ∧ min < 8) →
        b.hitlag_b.values = es.map (fun _ => 0)) ∧
      (3 < maj ∨ (maj = 3 ∧ 8 ≤ min) →
        b.hitlag_b.values = es.map (fun e => e.2.2.hitlag)) ∧
      (maj < 3 ∨ (maj = 3 ∧ min < 11) →
        b.anim_index_b.values = es.map (fun _ => 0)) ∧
      (3 < maj ∨ (maj = 3 ∧ 11 ≤ min) →
        b.anim_index_b.values = es.map (fun e => e.2.2.anim_index)) := by
  obtain ⟨es, hes, hb, hout, _⟩ := playerFramesAsParquet_some write s r h
  subst hmaj hmin
  refine ⟨es, playerColumns s es, hes, hb, hout, ?_⟩
  refine ⟨?_, ?_, ?_, ?_, ?_, ?_, ?_, ?_, ?_, ?_⟩ <;> intro hv <;>
    first
    | simp [playerColumns, gate_closed s _ _ hv]
    | simp [playerColumns, gate_open s _ _ hv]

/-- Witness for C5 on `playedReplay`, whose `slippi_version_raw` is `0x03060000`
(version 3.6.0): the gate of 2.0.0 is open, so `hitstun` carries the stored
values, and the gates of 3.8.0 and 3.11.0 are closed, so `hitlag` and
`anim_index` are zero in all four rows although the stored values are not. -/
theorem playerFrames_version_gates_witness :
    playerFramesAsParquet okWriter playedReplay = some playedExport ∧
    ∃ b, playerFrameBuilders playedReplay = some b ∧
      b.hitstun_b.values = [129, 229, 329, 429] ∧
      b.hurtbox_b.values = [135, 235, 335, 435] ∧
      b.hitlag_b.values = [0, 0, 0, 0] ∧
      b.anim_index_b.values = [0, 0, 0, 0] ∧
      playedFrames.map (fun e => e.2.2.hitlag) = [141, 241, 341, 441] ∧
      playedFrames.map (fun e => e.2.2.anim_index) = [142, 242, 342, 442] := by
  obtain ⟨es, b, hes, hb, _, g200, g200o, g210, g210o, g350, g350o, g380, g380o, g3110,
      g3110o⟩ :=
    playerFrames_version_gates okWriter playedReplay playedExport 3 6 (by decide) (by decide)
      playedReplay_export
  rw [playedReplay_storedFrames] at hes
  cases hes
  refine ⟨playedReplay_export, b, hb, ?_, ?_, ?_, ?_, by decide, by decide⟩
  · rw [(g200o (by decide)).1]; decide
  · rw [g210o (by decide)]; decide
  · rw [g380 (by decide)]; decide
  · rw [g3110 (by decide)]; decide

/-- The table of `playerFramesAsParquet` pairs each schema field with the array
finished from the builder of the same name. -/
theorem playerTable_zip (b : PlayerBuilders) :
    List.zip (playerTable b).schema (playerTable b).columns =
        ([(Field.mk "match_id" DataType.utf8, ArrowArray.utf8 b.match_id_b.values),
         (Field.mk "player_id" DataType.utf8, ArrowArray.utf8 b.player_id_b.values),
         (Field.mk "player_index" DataType.uint8, ArrowArray.uint8 b.player_index_b.values),
         (Field.mk "frame_number" DataType.uint32, ArrowArray.uint32 b.frame_number_b.values),
         (Field.mk "char_id" DataType.uint8, ArrowArray.uint8 b.char_id_b.values),
         (Field.mk "follower" DataType.boolean, ArrowArray.boolean b.follower_b.values),
         (Field.mk "seed" DataType.uint32, ArrowArray.uint32 b.seed_b.values),
         (Field.mk "ucf_x" DataType.uint8, ArrowArray.uint8 b.ucf_x_b.values),
         (Field.mk "stocks" DataType.uint8, ArrowArray.uint8 b.stocks_b.values),
         (Field.mk "alive" DataType.boolean, ArrowArray.boolean b.alive_b.values),
         (Field.mk "anim_index" DataType.uint32, ArrowArray.uint32 b.anim_index_b.values),
         (Field.mk "pos_x_pre" DataType.float32, ArrowArray.float32 b.pos_x_pre_b.values),
         (Field.mk "pos_y_pre" DataType.float32, ArrowArray.float32 b.pos_y_pre_b.values),
         (Field.mk "pos_x_post" DataType.float32, ArrowArray.float32 b.pos_x_post_b.values),
         (Field.mk "pos_y_post" DataType.float32, ArrowArray.float32 b.pos_y_post_b.values),
         (Field.mk "joy_x" DataType.float32, ArrowArray.float32 b.joy_x_b.values),
         (Field.mk "joy_y" DataType.float32, ArrowArray.float32 b.joy_y_b.values),
         (Field.mk "c_x" DataType.float32, ArrowArray.float32 b.c_x_b.values),
         (Field.mk "c_y" DataType.float32, ArrowArray.float32 b.c_y_b.values),
         (Field.mk "trigger" DataType.float32, ArrowArray.float32 b.trigger_b.values),
         (Field.mk "buttons" DataType.uint16, ArrowArray.uint16 b.buttons_b.values),
         (Field.mk "phys_l" DataType.float32, ArrowArray.float32 b.phys_l_b.values),
         (Field.mk "phys_r" DataType.float32, ArrowArray.float32 b.phys_r_b.values),
         (Field.mk "shield" DataType.float32, ArrowArray.float32 b.shield_b.values),
         (Field.mk "hit_with" DataType.uint8, ArrowArray.uint8 b.hit_with_b.values),
         (Field.mk "combo" DataType.uint8, ArrowArray.uint8 b.combo_b.values),
         (Field.mk "hurt_by" DataType.uint8, ArrowArray.uint8 b.hurt_by_b.values),
         (Field.mk "percent_pre" DataType.float32, ArrowArray.float32 b.percent_pre_b.values),
         (Field.mk "percent_post" DataType.float32, ArrowArray.float32 b.percent_post_b.values),
         (Field.mk "action_pre" DataType.uint16, ArrowArray.uint16 b.action_pre_b.values),
         (Field.mk "action_post" DataType.uint16, ArrowArray.uint16 b.action_post_b.values),
         (Field.mk "action_fc" DataType.float32, ArrowArray.float32 b.action_fc_b.values),
         (Field.mk "face_dir_pre" DataType.float32, ArrowArray.float32 b.face_dir_pre_b.values),
         (Field.mk "face_dir_post" DataType.float32, ArrowArray.float32 b.face_dir_post_b.values),
         (Field.mk "hitstun" DataType.float32, ArrowArray.float32 b.hitstun_b.values),
         (Field.mk "airborne" DataType.boolean, ArrowArray.boolean b.airborne_b.values),
         (Field.mk "ground_id" DataType.uint16, ArrowArray.uint16 b.ground_id_b.values),
         (Field.mk "jumps" DataType.uint8, ArrowArray.uint8 b.jumps_b.values),
         (Field.mk "l_cancel" DataType.uint8, ArrowArray.uint8 b.l_cancel_b.values),
         (Field.mk "hurtbox" DataType.uint8, ArrowArray.uint8 b.hurtbox_b.values),
         (Field.mk "hitlag" DataType.float32, ArrowArray.float32 b.hitlag_b.values),
         (Field.mk "self_air_x" DataType.float32, ArrowArray.float32 b.self_air_x_b.values),
         (Field.mk "self_air_y" DataType.float32, ArrowArray.float32 b.self_air_y_b.values),
         (Field.mk "attack_x" DataType.float32, ArrowArray.float32 b.attack_x_b.values),
         (Field.mk "attack_y" DataType.float32, ArrowArray.float32 b.attack_y_b.values),
         (Field.mk "self_grd_x" DataType.float32, ArrowArray.float32 b.self_grd_x_b.values)] : List (Field × ArrowArray)) := rfl

/-- C6: `playerFramesAsParquet` returns whenever the stored frame of every
active pair is readable, and in every export the rows are, in order, the pairs
`(p, f)` with `p < 8`, `player[p].player_type != 3` and `f < frame_count`
(ordered by `p`, then `f`), carried by the columns `player_index` and
`frame_number`; no two rows share that key; all 46 columns hold one value per
row, whatever the version; and each schema field is paired, in the table, with
the array finished from its own builder. -/
theorem playerFrames_rows (write : Writer) (s : SlippiReplay) :
    ((∀ pf ∈ activePairs s, (readAt (s.player pf.1).frame pf.2).isSome = true) →
      ∃ r, playerFramesAsParquet write s = some r) ∧
    (∀ r, playerFramesAsParquet write s = some r →
      ∃ b, playerFrameBuilders s = some b ∧
      r.output = some ("/tmp/frames.parquet", playerTable b) ∧
      List.zip b.player_index_b.values b.frame_number_b.values = activePairs s ∧
      (∀ p f, (p, f) ∈ activePairs s ↔
        p < 8 ∧ (s.player p).player_type ≠ 3 ∧ f < s.frame_count) ∧
      (activePairs s).Pairwise (fun x y => x.1 < y.1 ∨ (x.1 = y.1 ∧ x.2 < y.2)) ∧
      (List.zip b.player_index_b.values b.frame_number_b.values).Nodup ∧
      (playerTable b).schema.length = 46 ∧
      (∀ a ∈ (playerTable b).columns, a.length = (activePairs s).length) ∧
      List.zip (playerTable b).schema (playerTable b).columns =
        ([(Field.mk "match_id" DataType.utf8, ArrowArray.utf8 b.match_id_b.values),
         (Field.mk "player_id" DataType.utf8, ArrowArray.utf8 b.player_id_b.values),
         (Field.mk "player_index" DataType.uint8, ArrowArray.uint8 b.player_index_b.values),
         (Field.mk "frame_number" DataType.uint32, ArrowArray.uint32 b.frame_number_b.values),
         (Field.mk "char_id" DataType.uint8, ArrowArray.uint8 b.char_id_b.values),
         (Field.mk "follower" DataType.boolean, ArrowArray.boolean b.follower_b.values),
         (Field.mk "seed" DataType.uint32, ArrowArray.uint32 b.seed_b.values),
         (Field.mk "ucf_x" DataType.uint8, ArrowArray.uint8 b.ucf_x_b.values),
         (Field.mk "stocks" DataType.uint8, ArrowArray.uint8 b.stocks_b.values),
         (Field.mk "alive" DataType.boolean, ArrowArray.boolean b.alive_b.values),
         (Field.mk "anim_index" DataType.uint32, ArrowArray.uint32 b.anim_index_b.values),
         (Field.mk "pos_x_pre" DataType.float32, ArrowArray.float32 b.pos_x_pre_b.values),
         (Field.mk "pos_y_pre" DataType.float32, ArrowArray.float32 b.pos_y_pre_b.values),
         (Field.mk "pos_x_post" DataType.float32, ArrowArray.float32 b.pos_x_post_b.values),
         (Field.mk "pos_y_post" DataType.float32, ArrowArray.float32 b.pos_y_post_b.values),
         (Field.mk "joy_x" DataType.float32, ArrowArray.float32 b.joy_x_b.values),
         (Field.mk "joy_y" DataType.float32, ArrowArray.float32 b.joy_y_b.values),
         (Field.mk "c_x" DataType.float32, ArrowArray.float32 b.c_x_b.values),
         (Field.mk "c_y" DataType.float32, ArrowArray.float32 b.c_y_b.values),
         (Field.mk "trigger" DataType.float32, ArrowArray.float32 b.trigger_b.values),
         (Field.mk "buttons" DataType.uint16, ArrowArray.uint16 b.buttons_b.values),
         (Field.mk "phys_l" DataType.float32, ArrowArray.float32 b.phys_l_b.values),
         (Field.mk "phys_r" DataType.float32, ArrowArray.float32 b.phys_r_b.values),
         (Field.mk "shield" DataType.float32, ArrowArray.float32 b.shield_b.values),
         (Field.mk "hit_with" DataType.uint8, ArrowArray.uint8 b.hit_with_b.values),
         (Field.mk "combo" DataType.uint8, ArrowArray.uint8 b.combo_b.values),
         (Field.mk "hurt_by" DataType.uint8, ArrowArray.uint8 b.hurt_by_b.values),
         (Field.mk "percent_pre" DataType.float32, ArrowArray.float32 b.percent_pre_b.values),
         (Field.mk "percent_post" DataType.float32, ArrowArray.float32 b.percent_post_b.values),
         (Field.mk "action_pre" DataType.uint16, ArrowArray.uint16 b.action_pre_b.values),
         (Field.mk "action_post" DataType.uint16, ArrowArray.uint16 b.action_post_b.values),
         (Field.mk "action_fc" DataType.float32, ArrowArray.float32 b.action_fc_b.values),
         (Field.mk "face_dir_pre" DataType.float32, ArrowArray.float32 b.face_dir_pre_b.values),
         (Field.mk "face_dir_post" DataType.float32, ArrowArray.float32 b.face_dir_post_b.values),
         (Field.mk "hitstun" DataType.float32, ArrowArray.float32 b.hitstun_b.values),
         (Field.mk "airborne" DataType.boolean, ArrowArray.boolean b.airborne_b.values),
         (Field.mk "ground_id" DataType.uint16, ArrowArray.uint16 b.ground_id_b.values),
         (Field.mk "jumps" DataType.uint8, ArrowArray.uint8 b.jumps_b.values),
         (Field.mk "l_cancel" DataType.uint8, ArrowArray.uint8 b.l_cancel_b.values),
         (Field.mk "hurtbox" DataType.uint8, ArrowArray.uint8 b.hurtbox_b.values),
         (Field.mk "hitlag" DataType.float32, ArrowArray.float32 b.hitlag_b.values),
         (Field.mk "self_air_x" DataType.float32, ArrowArray.float32 b.self_air_x_b.values),
         (Field.mk "self_air_y" DataType.float32, ArrowArray.float32 b.self_air_y_b.values),
         (Field.mk "attack_x" DataType.float32, ArrowArray.float32 b.attack_x_b.values),
         (Field.mk "attack_y" DataType.float32, ArrowArray.float32 b.attack_y_b.values),
         (Field.mk "self_grd_x" DataType.float32, ArrowArray.float32 b.self_grd_x_b.values)] : List (Field × ArrowArray))) := by
  constructor
  · intro hread
    obtain ⟨es, hes⟩ := mapM_option_isSome (storedFrame s) (activePairs s)
      (fun pf hpf => by simpa [storedFrame] using hread pf hpf)
    exact ⟨_, playerFramesAsParquet_isSome write s es hes⟩
  · intro r h
    obtain ⟨es, hes, hb, hout, _⟩ := playerFramesAsParquet_some write s r h
    have hzip := storedFrames_pairs s es hes
    refine ⟨playerColumns s es, hb, hout, hzip, mem_activePairs s, activePairs_pairwise s,
      ?_, rfl, ?_, playerTable_zip _⟩
    · rw [hzip]; exact activePairs_nodup s
    · intro a ha
      rw [← storedFrames_length s es hes]
      exact playerArrays_length s es a ha

/-- Witness for C6 on `playedReplay`: all four stored frames are readable, the
export is `playedExport`, and its rows are the pairs `(0,0), (0,1), (1,0), (1,1)`. -/
theorem playerFrames_rows_witness :
    (∃ r, playerFramesAsParquet okWriter playedReplay = some r) ∧
    (∃ b, playerFrameBuilders playedReplay = some b ∧
      playedExport.output = some ("/tmp/frames.parquet", playerTable b) ∧
      List.zip b.player_index_b.values b.frame_number_b.values = activePairs playedReplay ∧
      (∀ p f, (p, f) ∈ activePairs playedReplay ↔
        p < 8 ∧ (playedReplay.player p).player_type ≠ 3 ∧ f < playedReplay.frame_count) ∧
      (activePairs playedReplay).Pairwise (fun x y => x.1 < y.1 ∨ (x.1 = y.1 ∧ x.2 < y.2)) ∧
      (List.zip b.player_index_b.values b.frame_number_b.values).Nodup ∧
      (playerTable b).schema.length = 46 ∧
      (∀ a ∈ (playerTable b).columns, a.length = (activePairs playedReplay).length) ∧
      List.zip (playerTable b).schema (playerTable b).columns =
        ([(Field.mk "match_id" DataType.utf8, ArrowArray.utf8 b.match_id_b.values),
         (Field.mk "player_id" DataType.utf8, ArrowArray.utf8 b.player_id_b.values),
         (Field.mk "player_index" DataType.uint8, ArrowArray.uint8 b.player_index_b.values),
         (Field.mk "frame_number" DataType.uint32, ArrowArray.uint32 b.frame_number_b.values),
         (Field.mk "char_id" DataType.uint8, ArrowArray.uint8 b.char_id_b.values),
         (Field.mk "follower" DataType.boolean, ArrowArray.boolean b.follower_b.values),
         (Field.mk "seed" DataType.uint32, ArrowArray.uint32 b.seed_b.values),
         (Field.mk "ucf_x" DataType.uint8, ArrowArray.uint8 b.ucf_x_b.values),
         (Field.mk "stocks" DataType.uint8, ArrowArray.uint8 b.stocks_b.values),
         (Field.mk "alive" DataType.boolean, ArrowArray.boolean b.alive_b.values),
         (Field.mk "anim_index" DataType.uint32, ArrowArray.uint32 b.anim_index_b.values),
         (Field.mk "pos_x_pre" DataType.float32, ArrowArray.float32 b.pos_x_pre_b.values),
         (Field.mk "pos_y_pre" DataType.float32, ArrowArray.float32 b.pos_y_pre_b.values),
         (Field.mk "pos_x_post" DataType.float32, ArrowArray.float32 b.pos_x_post_b.values),
         (Field.mk "pos_y_post" DataType.float32, ArrowArray.float32 b.pos_y_post_b.values),
         (Field.mk "joy_x" DataType.float32, ArrowArray.float32 b.joy_x_b.values),
         (Field.mk "joy_y" DataType.float32, ArrowArray.float32 b.joy_y_b.values),
         (Field.mk "c_x" DataType.float32, ArrowArray.float32 b.c_x_b.values),
         (Field.mk "c_y" DataType.float32, ArrowArray.float32 b.c_y_b.values),
         (Field.mk "trigger" DataType.float32, ArrowArray.float32 b.trigger_b.values),
         (Field.mk "buttons" DataType.uint16, ArrowArray.uint16 b.buttons_b.values),
         (Field.mk "phys_l" DataType.float32, ArrowArray.float32 b.phys_l_b.values),
         (Field.mk "phys_r" DataType.float32, ArrowArray.float32 b.phys_r_b.values),
         (Field.mk "shield" DataType.float32, ArrowArray.float32 b.shield_b.values),
         (Field.mk "hit_with" DataType.uint8, ArrowArray.uint8 b.hit_with_b.values),
         (Field.mk "combo" DataType.uint8, ArrowArray.uint8 b.combo_b.values),
         (Field.mk "hurt_by" DataType.uint8, ArrowArray.uint8 b.hurt_by_b.values),
         (Field.mk "percent_pre" DataType.float32, ArrowArray.float32 b.percent_pre_b.values),
         (Field.mk "percent_post" DataType.float32, ArrowArray.float32 b.percent_post_b.values),
         (Field.mk "action_pre" DataType.uint16, ArrowArray.uint16 b.action_pre_b.values),
         (Field.mk "action_post" DataType.uint16, ArrowArray.uint16 b.action_post_b.values),
         (Field.mk "action_fc" DataType.float32, ArrowArray.float32 b.action_fc_b.values),
         (Field.mk "face_dir_pre" DataType.float32, ArrowArray.float32 b.face_dir_pre_b.values),
         (Field.mk "face_dir_post" DataType.float32, ArrowArray.float32 b.face_dir_post_b.values),
         (Field.mk "hitstun" DataType.float32, ArrowArray.float32 b.hitstun_b.values),
         (Field.mk "airborne" DataType.boolean, ArrowArray.boolean b.airborne_b.values),
         (Field.mk "ground_id" DataType.uint16, ArrowArray.uint16 b.ground_id_b.values),
         (Field.mk "jumps" DataType.uint8, ArrowArray.uint8 b.jumps_b.values),
         (Field.mk "l_cancel" DataType.uint8, ArrowArray.uint8 b.l_cancel_b.values),
         (Field.mk "hurtbox" DataType.uint8, ArrowArray.uint8 b.hurtbox_b.values),
         (Field.mk "hitlag" DataType.float32, ArrowArray.float32 b.hitlag_b.values),
         (Field.mk "self_air_x" DataType.float32, ArrowArray.float32 b.self_air_x_b.values),
         (Field.mk "self_air_y" DataType.float32, ArrowArray.float32 b.self_air_y_b.values),
         (Field.mk "attack_x" DataType.float32, ArrowArray.float32 b.attack_x_b.values),
         (Field.mk "attack_y" DataType.float32, ArrowArray.float32 b.attack_y_b.values),
         (Field.mk "self_grd_x" DataType.float32, ArrowArray.float32 b.self_grd_x_b.values)] : List (Field × ArrowArray))) ∧
    activePairs playedReplay = [(0, 0), (0, 1), (1, 0), (1, 1)] :=
  ⟨(playerFrames_rows okWriter playedReplay).1 (by decide),
   (playerFrames_rows okWriter playedReplay).2 playedExport
     (playerFramesAsParquet_isSome okWriter playedReplay playedFrames rfl),
   by decide⟩

/-! ## The loops of `itemFramesAsParquet` -/

theorem itemColumns_nil (s : SlippiReplay) : itemColumns s [] = ItemBuilders.empty := rfl

/-- Appending the row of `(i, f, fr)` to the columns of `es` gives the columns
of `es ++ [(i, f, fr)]`. -/
theorem appendItemRow_itemColumns (s : SlippiReplay) (i f : Nat) (fr : SlippiItemFrame)
    (es : List (Nat × Nat × SlippiItemFrame)) :
    appendItemRow s i fr (itemColumns s es) = itemColumns s (es ++ [(i, f, fr)]) := by
  cases h1 : MIN_VERSION (slippi_maj s) (slippi_min s) (slippi_rev s) 3 2 0 <;>
  cases h2 : MIN_VERSION (slippi_maj s) (slippi_min s) (slippi_rev s) 3 6 0 <;>
  simp only [appendItemRow, appendItemPlain, appendItemGate_3_2_0, appendItemGate_3_6_0,
    itemColumns, UInt8Builder.Append, UInt16Builder.Append, UInt32Builder.Append,
    FloatBuilder.Append, StringBuilder.Append, List.map_append, List.map_cons, List.map_nil,
    h1, h2, if_true, if_false, Bool.false_eq_true]

/-- The inner loop of `itemFramesAsParquet`, started on the columns of `es`. -/
theorem itemFrameStep_foldlM (s : SlippiReplay) (i : Nat) (fs : List Nat)
    (es : List (Nat × Nat × SlippiItemFrame)) :
    fs.foldlM (itemFrameStep s i) (itemColumns s es) =
      (fs.mapM (fun f => storedItemFrame s (i, f))).map (fun xs => itemColumns s (es ++ xs)) := by
  apply foldlM_read_push (fun f => storedItemFrame s (i, f)) (itemColumns s) (itemFrameStep s i)
  · intro es f h
    simp only [storedItemFrame, Option.map_eq_none'] at h
    simp [itemFrameStep, h]
  · intro es f a h
    simp only [storedItemFrame, Option.map_eq_some'] at h
    obtain ⟨fr, hfr, rfl⟩ := h
    simp [itemFrameStep, hfr, appendItemRow_itemColumns s i f]

/-- One iteration of the outer loop of `itemFramesAsParquet`, on the columns of `es`. -/
theorem itemSlotStep_itemColumns (M : Nat) (s : SlippiReplay) (i : Nat)
    (es : List (Nat × Nat × SlippiItemFrame)) :
    itemSlotStep M s (itemColumns s es) i =
      ((itemSlotPairs M s i).mapM (storedItemFrame s)).map
        (fun xs => itemColumns s (es ++ xs)) := by
  unfold itemSlotStep itemSlotPairs
  by_cases h : (s.item i).spawn_id > M ∨ (s.item i).num_frames = 0
  · have h2 : ¬ ((s.item i).spawn_id ≤ M ∧ (s.item i).num_frames ≠ 0) := by
      rcases h with h | h
      · intro h3; omega
      · intro h3; exact h3.2 h
    rw [if_pos h, if_neg h2, List.mapM_nil]
    show some (itemColumns s es) = some (itemColumns s (es ++ []))
    rw [List.append_nil]
  · have h2 : (s.item i).spawn_id ≤ M ∧ (s.item i).num_frames ≠ 0 := by
      constructor
      · have := fun h3 => h (Or.inl h3)
        omega
      · exact fun h3 => h (Or.inr h3)
    rw [if_neg h, if_pos h2, mapM_option_map, itemFrameStep_foldlM]

/-- The outer loop of `itemFramesAsParquet` over the slots `is`, started on the
columns of `es`. -/
theorem itemSlotStep_foldlM (M : Nat) (s : SlippiReplay) (is : List Nat)
    (es : List (Nat × Nat × SlippiItemFrame)) :
    is.foldlM (itemSlotStep M s) (itemColumns s es) =
      ((is.flatMap (itemSlotPairs M s)).mapM (storedItemFrame s)).map
        (fun xs => itemColumns s (es ++ xs)) := by
  induction is generalizing es with
  | nil =>
    show some (itemColumns s es) = some (itemColumns s (es ++ []))
    rw [List.append_nil]
  | cons i is ih =>
    rw [List.foldlM_cons, List.flatMap_cons, List.mapM_append, itemSlotStep_itemColumns]
    cases h : (itemSlotPairs M s i).mapM (storedItemFrame s) with
    | none => rfl
    | some xs =>
      simp only [Option.map_some', Option.some_bind, Option.bind_eq_bind, ih,
        List.append_assoc]
      cases (List.mapM (storedItemFrame s) _) <;> rfl

/-- The builders after the loops of `itemFramesAsParquet` are defined exactly
when every stored item frame of a row can be read, and then they are the
columns of those stored frames. -/
theorem itemFrameBuilders_eq (M : Nat) (s : SlippiReplay) :
    itemFrameBuilders M s = (storedItemFrames M s).map (itemColumns s) := by
  have h := itemSlotStep_foldlM M s (List.range M) []
  rw [itemColumns_nil] at h
  simpa [itemFrameBuilders, storedItemFrames, itemPairs] using h

/-! ## Claims on `itemFramesAsParquet` -/

/-- Whenever `itemFramesAsParquet` returns, the stored item frames of all rows
were readable, and the table handed to the writer is made from their columns. -/
theorem itemFramesAsParquet_some (M : Nat) (write : Writer) (s : SlippiReplay)
    (r : ExportResult) (h : itemFramesAsParquet M write s = some r) :
    ∃ es, storedItemFrames M s = some es ∧ itemFrameBuilders M s = some (itemColumns s es) ∧
      r.output = some ("/tmp/items.parquet", itemTable (itemColumns s es)) ∧
      r.status =
        statusAfterWrite (write "/tmp/items.parquet" (itemTable (itemColumns s es))) := by
  unfold itemFramesAsParquet at h
  rw [itemFrameBuilders_eq] at h ⊢
  cases hes : storedItemFrames M s with
  | none => rw [hes] at h; simp at h
  | some es =>
    rw [hes] at h
    simp only [Option.map_some', Option.some.injEq] at h
    subst h
    exact ⟨es, rfl, rfl, rfl, rfl⟩

/-- The function `itemFramesAsParquet` returns as soon as every stored item frame of a row
can be read. -/
theorem itemFramesAsParquet_isSome (M : Nat) (write : Writer) (s : SlippiReplay)
    (es : List (Nat × Nat × SlippiItemFrame)) (h : storedItemFrames M s = some es) :
    itemFramesAsParquet M write s =
      some { output := some ("/tmp/items.parquet", itemTable (itemColumns s es))
             status := statusAfterWrite
               (write "/tmp/items.parquet" (itemTable (itemColumns s es))) } := by
  unfold itemFramesAsParquet
  rw [itemFrameBuilders_eq, h]
  rfl

/-- The stored item frames read for a list of pairs carry exactly those pairs. -/
theorem mapM_storedItemFrame_pairs (s : SlippiReplay) (l : List (Nat × Nat))
    (es : List (Nat × Nat × SlippiItemFrame)) (h : l.mapM (storedItemFrame s) = some es) :
    es.map (fun e => (e.1, e.2.1)) = l := by
  induction l generalizing es with
  | nil =>
    rw [List.mapM_nil] at h
    cases h
    rfl
  | cons a l ih =>
    rw [List.mapM_cons] at h
    cases h1 : storedItemFrame s a with
    | none =>
      simp only [h1, Option.bind_eq_bind, Option.none_bind, reduceCtorEq] at h
    | some e =>
      cases h2 : l.mapM (storedItemFrame s) with
      | none =>
        simp only [h1, h2, Option.bind_eq_bind, Option.none_bind, Option.some_bind,
          reduceCtorEq] at h
      | some es1 =>
        simp only [h1, h2, Option.some_bind, Option.bind_eq_bind, Option.pure_def,
          Option.some.injEq] at h
        subst h
        simp only [storedItemFrame, Option.map_eq_some'] at h1
        obtain ⟨fr, _, rfl⟩ := h1
        simp [ih es1 h2]

/-- All pairs that the loops go through for slot `j` have `j` as first component. -/
theorem filter_itemSlotPairs (M : Nat) (s : SlippiReplay) (i j : Nat) :
    (itemSlotPairs M s j).filter (fun pf => decide (pf.1 = i)) =
      if j = i then itemSlotPairs M s j else [] := by
  by_cases hji : j = i
  · rw [if_pos hji]
    apply List.filter_eq_self.2
    intro a ha
    unfold itemSlotPairs at ha
    split_ifs at ha
    · obtain ⟨f, _, rfl⟩ := List.mem_map.1 ha
      simpa using hji
    · simp at ha
  · rw [if_neg hji]
    apply List.filter_eq_nil_iff.2
    intro a ha
    unfold itemSlotPairs at ha
    split_ifs at ha
    · obtain ⟨f, _, rfl⟩ := List.mem_map.1 ha
      simpa using hji
    · simp at ha

/-- The rows of slot `i` among the rows of the first `n` slots. -/
theorem filter_itemPairs_range (M : Nat) (s : SlippiReplay) (i n : Nat) :
    ((List.range n).flatMap (itemSlotPairs M s)).filter (fun pf => decide (pf.1 = i)) =
      if i < n then itemSlotPairs M s i else [] := by
  induction n with
  | zero => simp
  | succ n ih =>
    rw [List.range_succ, List.flatMap_append, List.filter_append, ih]
    simp only [List.flatMap_cons, List.flatMap_nil, List.append_nil, filter_itemSlotPairs]
    by_cases h1 : i < n
    · have h2 : n ≠ i := by omega
      have h3 : i < n + 1 := by omega
      simp [h1, h2, h3]
    · by_cases h2 : n = i
      · subst h2; simp
      · have h3 : ¬ i < n + 1 := by omega
        simp [h1, h2, h3]

/-- The frame indices of the rows of slot `i`, in row order. -/
theorem storedItemFrames_slot (M : Nat) (s : SlippiReplay)
    (es : List (Nat × Nat × SlippiItemFrame)) (h : storedItemFrames M s = some es)
    (i : Nat) (hi : i < M) :
    (es.filter (fun e => decide (e.1 = i))).map (fun e => e.2.1) =
      if (s.item i).spawn_id ≤ M ∧ (s.item i).num_frames ≠ 0 then
        List.range (s.item i).num_frames
      else [] := by
  have hp := mapM_storedItemFrame_pairs s (itemPairs M s) es h
  have hf := filter_itemPairs_range M s i M
  rw [if_pos hi] at hf
  have h1 : (es.filter (fun e => decide (e.1 = i))).map (fun e => (e.1, e.2.1)) =
      (itemPairs M s).filter (fun pf => decide (pf.1 = i)) := by
    rw [← hp, List.filter_map]
    rfl
  have h2 : (es.filter (fun e => decide (e.1 = i))).map (fun e => e.2.1) =
      ((es.filter (fun e => decide (e.1 = i))).map (fun e => (e.1, e.2.1))).map Prod.snd := by
    rw [List.map_map]; rfl
  rw [h2, h1]
  unfold itemPairs
  rw [hf]
  unfold itemSlotPairs
  split_ifs
  · rw [List.map_map]
    exact List.map_id _
  · rfl

theorem itemReplay_storedItemFrames : storedItemFrames 3 itemReplay = some itemReplayFrames :=
  rfl

theorem itemReplay_export :
    itemFramesAsParquet 3 okWriter itemReplay = some itemReplayExport :=
  itemFramesAsParquet_isSome 3 okWriter itemReplay itemReplayFrames itemReplay_storedItemFrames

theorem boundaryItemReplay_storedItemFrames :
    storedItemFrames 4 boundaryItemReplay = some [(0, 0, sampleItemFrame 5 10)] := rfl

/-- C7, as stated, fails: `boundaryItemReplay` (pool of 4 slots) stores the spawn
id `4` in slot 0, which is not below the pool size, yet the export has the row
of that slot; so the rows of slot `i` are not governed by `spawn_id < MAX_ITEMS`. -/
theorem itemFrames_live_below_fails :
    ¬ (∃ es, storedItemFrames 4 boundaryItemReplay = some es ∧
        itemFrameBuilders 4 boundaryItemReplay = some (itemColumns boundaryItemReplay es) ∧
        ∀ i, i < 4 →
          (es.filter (fun e => decide (e.1 = i))).map (fun e => e.2.1) =
            if (boundaryItemReplay.item i).spawn_id < 4 ∧
                (boundaryItemReplay.item i).num_frames ≠ 0 then
              List.range (boundaryItemReplay.item i).num_frames
            else []) := by
  rintro ⟨es, hes, _, h⟩
  rw [boundaryItemReplay_storedItemFrames] at hes
  cases hes
  have h0 := h 0 (by decide)
  revert h0
  decide

/-- C7, amended: `itemFramesAsParquet` returns whenever the stored item frame
of every row is readable, and in every export, with `es` the slots, frame
indices and stored frames behind the rows, the rows of slot `i < MAX_ITEMS` are
its frames `0 .. num_frames - 1` in order when the stored `spawn_id` is at most
`MAX_ITEMS` and `num_frames` is non-zero, and slot `i` has no row otherwise. -/
theorem itemFrames_live_slots (MAX_ITEMS : Nat) (write : Writer) (s : SlippiReplay) :
    ((∀ pf ∈ itemPairs MAX_ITEMS s, (readAt (s.item pf.1).frame pf.2).isSome = true) →
      ∃ r, itemFramesAsParquet MAX_ITEMS write s = some r) ∧
    (∀ r, itemFramesAsParquet MAX_ITEMS write s = some r →
      ∃ es, storedItemFrames MAX_ITEMS s = some es ∧
        itemFrameBuilders MAX_ITEMS s = some (itemColumns s es) ∧
        r.output = some ("/tmp/items.parquet", itemTable (itemColumns s es)) ∧
        ∀ i, i < MAX_ITEMS →
          (es.filter (fun e => decide (e.1 = i))).map (fun e => e.2.1) =
            if (s.item i).spawn_id ≤ MAX_ITEMS ∧ (s.item i).num_frames ≠ 0 then
              List.range (s.item i).num_frames
            else []) := by
  constructor
  · intro hread
    obtain ⟨es, hes⟩ := mapM_option_isSome (storedItemFrame s) (itemPairs MAX_ITEMS s)
      (fun pf hpf => by simpa [storedItemFrame] using hread pf hpf)
    exact ⟨_, itemFramesAsParquet_isSome MAX_ITEMS write s es hes⟩
  · intro r h
    obtain ⟨es, hes, hb, hout, _⟩ := itemFramesAsParquet_some MAX_ITEMS write s r h
    exact ⟨es, hes, hb, hout, storedItemFrames_slot MAX_ITEMS s es hes⟩

/-- Witness for C7 on `itemReplay` (pool of 3 slots): the export exists; slot 0
contributes its two frames, slots 1 and 2 nothing. -/
theorem itemFrames_live_slots_witness :
    (∃ r, itemFramesAsParquet 3 okWriter itemReplay = some r) ∧
    (∃ es, storedItemFrames 3 itemReplay = some es ∧
        itemFrameBuilders 3 itemReplay = some (itemColumns itemReplay es) ∧
        itemReplayExport.output =
          some ("/tmp/items.parquet", itemTable (itemColumns itemReplay es)) ∧
        ∀ i, i < 3 →
          (es.filter (fun e => decide (e.1 = i))).map (fun e => e.2.1) =
            if (itemReplay.item i).spawn_id ≤ 3 ∧ (itemReplay.item i).num_frames ≠ 0 then
              List.range (itemReplay.item i).num_frames
            else []) :=
  ⟨(itemFrames_live_slots 3 okWriter itemReplay).1 (by decide),
   (itemFrames_live_slots 3 okWriter itemReplay).2 itemReplayExport
     (itemFramesAsParquet_isSome 3 okWriter itemReplay itemReplayFrames rfl)⟩

/-- C8: let `maj` and `min` be bits 31-24 and 23-16 of `slippi_version_raw`. In
every export of `itemFramesAsParquet`, with `es` the stored item frames behind
the rows and `b` the builders of the table, the columns `missile_type`,
`turnip_face`, `is_launched` and `charged_power` are `0` in every row when
`(maj, min)` is lexicographically below `(3, 2)`, whatever `flags_1 .. flags_4`
hold, and are `flags_1`, `flags_2`, `flags_3`, `flags_4` of the stored item
frame when it is at or above `(3, 2)`. -/
theorem itemFrames_flag_gate (MAX_ITEMS : Nat) (write : Writer) (s : SlippiReplay)
    (r : ExportResult) (maj min : Nat) (hmaj : maj = s.slippi_version_raw / 2 ^ 24 % 256)
    (hmin : min = s.slippi_version_raw / 2 ^ 16 % 256)
    (h : itemFramesAsParquet MAX_ITEMS write s = some r) :
    ∃ es b, storedItemFrames MAX_ITEMS s = some es ∧
      itemFrameBuilders MAX_ITEMS s = some b ∧
      r.output = some ("/tmp/items.parquet", itemTable b) ∧
      (maj < 3 ∨ (maj = 3 ∧ min < 2) →
        b.missile_type_b.values = es.map (fun _ => 0) ∧
        b.turnip_face_b.values = es.map (fun _ => 0) ∧
        b.is_launched_b.values = es.map (fun _ => 0) ∧
        b.charged_power_b.values = es.map (fun _ => 0)) ∧
      (3 < maj ∨ (maj = 3 ∧ 2 ≤ min) →
        b.missile_type_b.values = es.map (fun e => e.2.2.flags_1) ∧
        b.turnip_face_b.values = es.map (fun e => e.2.2.flags_2) ∧
        b.is_launched_b.values = es.map (fun e => e.2.2.flags_3) ∧
        b.charged_power_b.values = es.map (fun e => e.2.2.flags_4)) := by
  obtain ⟨es, hes, hb, hout, _⟩ := itemFramesAsParquet_some MAX_ITEMS write s r h
  subst hmaj hmin
  refine ⟨es, itemColumns s es, hes, hb, hout, ?_, ?_⟩ <;> intro hv
  · simp [itemColumns, gate_closed s _ _ hv]
  · simp [itemColumns, gate_open s _ _ hv]

/-- Witness for C8: `itemReplay` (raw version `0x03000000`, 3.0.0) exports zeros
in the four flag columns although the stored flags are not zero, and the same
replay declared 3.9.0 (`0x03090000`) exports the stored flags. -/
theorem itemFrames_flag_gate_witness :
    (∃ b, itemFrameBuilders 3 itemReplay = some b ∧
      b.missile_type_b.values = [0, 0] ∧ b.turnip_face_b.values = [0, 0] ∧
      b.is_launched_b.values = [0, 0] ∧ b.charged_power_b.values = [0, 0]) ∧
    (∃ b, itemFrameBuilders 3 itemReplayNew = some b ∧
      b.missile_type_b.values = [19, 29] ∧ b.turnip_face_b.values = [20, 30] ∧
      b.is_launched_b.values = [21, 31] ∧ b.charged_power_b.values = [22, 32]) := by
  constructor
  · obtain ⟨es, b, hes, hb, _, hlow, _⟩ :=
      itemFrames_flag_gate 3 okWriter itemReplay itemReplayExport 3 0 (by decide) (by decide)
        itemReplay_export
    rw [itemReplay_storedItemFrames] at hes
    cases hes
    obtain ⟨h1, h2, h3, h4⟩ := hlow (by decide)
    exact ⟨b, hb, by rw [h1]; decide, by rw [h2]; decide, by rw [h3]; decide,
      by rw [h4]; decide⟩
  · obtain ⟨es, b, hes, hb, _, _, hhigh⟩ :=
      itemFrames_flag_gate 3 okWriter itemReplayNew _ 3 9 (by decide) (by decide)
        (itemFramesAsParquet_isSome 3 okWriter itemReplayNew itemReplayFrames rfl)
    have hes2 : storedItemFrames 3 itemReplayNew = some itemReplayFrames := rfl
    rw [hes2] at hes
    cases hes
    obtain ⟨h1, h2, h3, h4⟩ := hhigh (by decide)
    exact ⟨b, hb, by rw [h1]; decide, by rw [h2]; decide, by rw [h3]; decide,
      by rw [h4]; decide⟩

/-- C16: let `maj` and `min` be bits 31-24 and 23-16 of `slippi_version_raw`. In
every export of `itemFramesAsParquet`, the unsigned 8-bit column `owner` holds
`255`, the default `-1` reduced modulo `2^8`, in every row when `(maj, min)` is
lexicographically below `(3, 6)`, whatever the stored owner is, and holds the
stored owner when it is at or above `(3, 6)`. -/
theorem itemFrames_owner_gate (MAX_ITEMS : Nat) (write : Writer) (s : SlippiReplay)
    (r : ExportResult) (maj min : Nat) (hmaj : maj = s.slippi_version_raw / 2 ^ 24 % 256)
    (hmin : min = s.slippi_version_raw / 2 ^ 16 % 256)
    (h : itemFramesAsParquet MAX_ITEMS write s = some r) :
    ∃ es b, storedItemFrames MAX_ITEMS s = some es ∧
      itemFrameBuilders MAX_ITEMS s = some b ∧
      r.output = some ("/tmp/items.parquet", itemTable b) ∧
      toUInt8 (-1) = 255 ∧
      (maj < 3 ∨ (maj = 3 ∧ min < 6) → b.owner_b.values = es.map (fun _ => 255)) ∧
      (3 < maj ∨ (maj = 3 ∧ 6 ≤ min) →
        b.owner_b.values = es.map (fun e => e.2.2.owner)) := by
  obtain ⟨es, hes, hb, hout, _⟩ := itemFramesAsParquet_some MAX_ITEMS write s r h
  subst hmaj hmin
  have h255 : toUInt8 (-1) = 255 := by decide
  refine ⟨es, itemColumns s es, hes, hb, hout, h255, ?_, ?_⟩ <;> intro hv
  · simp [itemColumns, gate_closed s _ _ hv, h255]
  · simp [itemColumns, gate_open s _ _ hv]

/-- Witness for C16: `itemReplay` (raw version `0x03000000`, 3.0.0) exports `255`
in both rows although the stored owner is `1`, and the same replay declared
3.9.0 (`0x03090000`) exports the stored owner `1`. -/
theorem itemFrames_owner_gate_witness :
    (∃ b, itemFrameBuilders 3 itemReplay = some b ∧ b.owner_b.values = [255, 255]) ∧
    (∃ b, itemFrameBuilders 3 itemReplayNew = some b ∧ b.owner_b.values = [1, 1]) ∧
    itemReplayFrames.map (fun e => e.2.2.owner) = [1, 1] := by
  refine ⟨?_, ?_, by decide⟩
  · obtain ⟨es, b, hes, hb, _, _, hlow, _⟩ :=
      itemFrames_owner_gate 3 okWriter itemReplay itemReplayExport 3 0 (by decide) (by decide)
        itemReplay_export
    rw [itemReplay_storedItemFrames] at hes
    cases hes
    exact ⟨b, hb, by rw [hlow (by decide)]; decide⟩
  · obtain ⟨es, b, hes, hb, _, _, _, hhigh⟩ :=
      itemFrames_owner_gate 3 okWriter itemReplayNew _ 3 9 (by decide) (by decide)
        (itemFramesAsParquet_isSome 3 okWriter itemReplayNew itemReplayFrames rfl)
    have hes2 : storedItemFrames 3 itemReplayNew = some itemReplayFrames := rfl
    rw [hes2] at hes
    cases hes
    exact ⟨b, hb, by rw [hhigh (by decide)]; decide⟩

/-- C17: in every export of `itemFramesAsParquet`, the unsigned 32-bit column
`frame` holds, in every row, the stored item frame number plus `123` reduced
modulo `2^32`; for a stored 32-bit frame number `g >= -123` this is the value
`g + 123` itself; and the column does not depend on `first_frame`. -/
theorem itemFrames_frame_column (MAX_ITEMS : Nat) (write : Writer) (s : SlippiReplay)
    (r : ExportResult) (h : itemFramesAsParquet MAX_ITEMS write s = some r) :
    ∃ es b, storedItemFrames MAX_ITEMS s = some es ∧
      itemFrameBuilders MAX_ITEMS s = some b ∧
      r.output = some ("/tmp/items.parquet", itemTable b) ∧
      b.frame_b.values = es.map (fun e => ((e.2.2.frame + 123) % 2 ^ 32).toNat) ∧
      (∀ e ∈ es, -123 ≤ e.2.2.frame → e.2.2.frame < 2 ^ 31 →
        ((toUInt32 (e.2.2.frame + 123) : Nat) : Int) = e.2.2.frame + 123) ∧
      (∀ first : Int, itemFrameBuilders MAX_ITEMS { s with first_frame := first } = some b) := by
  obtain ⟨es, hes, hb, hout, _⟩ := itemFramesAsParquet_some MAX_ITEMS write s r h
  refine ⟨es, itemColumns s es, hes, hb, hout, rfl, ?_, ?_⟩
  · intro e _ h1 h2
    unfold toUInt32
    have h3 : (e.2.2.frame + 123) % 2 ^ 32 = e.2.2.frame + 123 :=
      Int.emod_eq_of_lt (by omega) (by omega)
    rw [h3]
    exact Int.toNat_of_nonneg (by omega)
  · intro first
    exact hb

/-- Witness for C17 on `itemReplay`: the stored frame numbers `-123` and `-122`
give the column values `0` and `1`. -/
theorem itemFrames_frame_column_witness :
    itemFramesAsParquet 3 okWriter itemReplay = some itemReplayExport ∧
    (itemColumns itemReplay itemReplayFrames).frame_b.values = [0, 1] ∧
    ∃ es b, storedItemFrames 3 itemReplay = some es ∧
      itemFrameBuilders 3 itemReplay = some b ∧
      itemReplayExport.output = some ("/tmp/items.parquet", itemTable b) ∧
      b.frame_b.values = es.map (fun e => ((e.2.2.frame + 123) % 2 ^ 32).toNat) ∧
      (∀ e ∈ es, -123 ≤ e.2.2.frame → e.2.2.frame < 2 ^ 31 →
        ((toUInt32 (e.2.2.frame + 123) : Nat) : Int) = e.2.2.frame + 123) ∧
      (∀ first : Int,
        itemFrameBuilders 3 { itemReplay with first_frame := first } = some b) :=
  ⟨itemReplay_export, by decide,
   itemFrames_frame_column 3 okWriter itemReplay itemReplayExport itemReplay_export⟩

/-! ## Claims on `fodPlatformFramesAsParquet` -/

/-- After `n` iterations the loop of `fodPlatformFramesAsParquet` holds the
columns of the first `n` platform frames. -/
theorem platformStep_foldl (s : SlippiReplay) (n : Nat) (hn : n ≤ s.platform_frames.length) :
    (List.range n).foldl (platformStep s) PlatformBuilders.empty =
      platformColumns s (s.platform_frames.take n) := by
  induction n with
  | zero => rfl
  | succ n ih =>
    have hlt : n < s.platform_frames.length := by omega
    rw [List.range_succ, List.foldl_append, ih (by omega), List.take_succ]
    simp only [List.foldl_cons, List.foldl_nil, platformStep, List.getElem?_eq_getElem hlt,
      appendPlatformRow, platformColumns, UInt32Builder.Append, FloatBuilder.Append,
      StringBuilder.Append, List.map_append, Option.toList_some, List.map_cons, List.map_nil]

/-- The builders of `fodPlatformFramesAsParquet` after its loop. -/
theorem platformBuilders_eq (s : SlippiReplay) :
    platformBuilders s = platformColumns s s.platform_frames := by
  unfold platformBuilders
  rw [platformStep_foldl s _ (Nat.le_refl _), List.take_length]

/-- C10: when `platform_frames` is empty, `fodPlatformFramesAsParquet` hands no
table to the writer and returns OK; otherwise it writes to
`/tmp/platforms.parquet` the table whose four columns hold, for each element of
`platform_frames` in order, `start_time`, and that element's `frame`,
`left_height` and `right_height`, and returns the status of that write. -/
theorem fodPlatformFrames_rows (write : Writer) (s : SlippiReplay) :
    fodPlatformFramesAsParquet write s =
      if s.platform_frames = [] then
        { output := none, status := Status.OK }
      else
        { output := some ("/tmp/platforms.parquet",
            Table.Make platformSchema
              [ArrowArray.utf8 (s.platform_frames.map (fun _ => s.start_time)),
               ArrowArray.uint32 (s.platform_frames.map (fun e => e.frame)),
               ArrowArray.float32 (s.platform_frames.map (fun e => e.left_height)),
               ArrowArray.float32 (s.platform_frames.map (fun e => e.right_height))])
          status := statusAfterWrite (write "/tmp/platforms.parquet"
            (Table.Make platformSchema
              [ArrowArray.utf8 (s.platform_frames.map (fun _ => s.start_time)),
               ArrowArray.uint32 (s.platform_frames.map (fun e => e.frame)),
               ArrowArray.float32 (s.platform_frames.map (fun e => e.left_height)),
               ArrowArray.float32 (s.platform_frames.map (fun e => e.right_height))])) } := by
  unfold fodPlatformFramesAsParquet
  rw [platformBuilders_eq]
  cases h : s.platform_frames with
  | nil => rfl
  | cons e es => rfl

/-! ## Claims on `playerSettingsAsJson` -/

/-- One iteration of the loop of `playerSettingsAsJson` appends the record of
slot `i` when the slot is not empty and nothing otherwise. -/
theorem playerSettingsStep_eq (s : SlippiReplay) (ss : String) (i : Nat) :
    playerSettingsStep s ss i =
      if (s.player i).player_type ≠ 3 then ss ++ playerRecord s i else ss := by
  unfold playerSettingsStep
  split_ifs
  · simp only [playerRecord, playerRecordBody, String.append_assoc]
  · rfl

theorem foldl_append_string (l : List String) (acc : String) :
    l.foldl (fun r x => r ++ x) acc = acc ++ l.foldl (fun r x => r ++ x) "" := by
  induction l generalizing acc with
  | nil => simp only [List.foldl_nil, String.append_empty]
  | cons a l ih =>
    simp only [List.foldl_cons]
    rw [ih (acc ++ a), ih ("" ++ a), String.empty_append, String.append_assoc]

theorem string_join_cons (a : String) (l : List String) :
    String.join (a :: l) = a ++ String.join l := by
  unfold String.join
  rw [List.foldl_cons, foldl_append_string, String.empty_append]

theorem string_join_nil : String.join [] = "" := rfl

/-- The loop of `playerSettingsAsJson` over the slots `is`, started on `ss`. -/
theorem playerSettingsStep_foldl (s : SlippiReplay) (is : List Nat) (ss : String) :
    is.foldl (playerSettingsStep s) ss =
      ss ++ String.join ((is.filter
        (fun i => decide ((s.player i).player_type ≠ 3))).map (playerRecord s)) := by
  induction is generalizing ss with
  | nil => simp only [List.foldl_nil, List.filter_nil, List.map_nil, string_join_nil,
      String.append_empty]
  | cons i is ih =>
    rw [List.foldl_cons, ih, playerSettingsStep_eq]
    by_cases h : (s.player i).player_type = 3
    · rw [List.filter_cons_of_neg (by simp [h]), if_neg (by simp [h])]
    · rw [List.filter_cons_of_pos (by simp [h]), if_pos h, List.map_cons, string_join_cons,
        String.append_assoc]

/-- The output of `playerSettingsAsJson` is the concatenation of the records of
the non-empty slots among `0 .. 3`, in ascending order. -/
theorem playerSettingsAsJson_eq (s : SlippiReplay) :
    playerSettingsAsJson s =
      String.join (((List.range 4).filter
        (fun i => decide ((s.player i).player_type ≠ 3))).map (playerRecord s)) := by
  unfold playerSettingsAsJson
  rw [playerSettingsStep_foldl, String.empty_append]

theorem digitChar_ne_newline : ∀ m, m < 10 → Nat.digitChar m ≠ '\n' := by
  decide

theorem toDigitsCore_no_newline (fuel : Nat) :
    ∀ (n : Nat) (ds : List Char), '\n' ∉ ds → '\n' ∉ Nat.toDigitsCore 10 fuel n ds := by
  induction fuel with
  | zero => intro n ds h; simpa [Nat.toDigitsCore] using h
  | succ fuel ih =>
    intro n ds h
    have hcons : '\n' ∉ Nat.digitChar (n % 10) :: ds := by
      intro hm
      rcases List.mem_cons.1 hm with h1 | h1
      · exact digitChar_ne_newline _ (Nat.mod_lt n (by decide)) h1.symm
      · exact h h1
    simp only [Nat.toDigitsCore]
    split_ifs
    · exact hcons
    · exact ih _ _ hcons

theorem nat_repr_no_newline (n : Nat) : '\n' ∉ (Nat.repr n).data := by
  unfold Nat.repr Nat.toDigits
  exact toDigitsCore_no_newline _ _ _ (List.not_mem_nil _)

theorem int_toString_no_newline (z : Int) : '\n' ∉ (toString z).data := by
  cases z with
  | ofNat m => exact nat_repr_no_newline m
  | negSucc m =>
    show '\n' ∉ ("-" ++ Nat.repr (m + 1)).data
    rw [String.data_append]
    intro h
    rcases List.mem_append.1 h with h1 | h1
    · revert h1; decide
    · exact nat_repr_no_newline _ h1

theorem append_no_newline (a b : String) (ha : '\n' ∉ a.data) (hb : '\n' ∉ b.data) :
    '\n' ∉ (a ++ b).data := by
  rw [String.data_append]
  intro h
  rcases List.mem_append.1 h with h1 | h1
  · exact ha h1
  · exact hb h1

theorem JSTR_no_newline (k v : String) (hk : '\n' ∉ k.data) (hv : '\n' ∉ v.data) :
    '\n' ∉ (JSTR k v).data := by
  unfold JSTR
  exact append_no_newline _ _ (append_no_newline _ _ (append_no_newline _ _
    (append_no_newline _ _ (append_no_newline _ _ (by decide) (by decide)) hk)
    (by decide)) hv) (by decide)

theorem JINT_no_newline (k : String) (n : Int) (hk : '\n' ∉ k.data) :
    '\n' ∉ (JINT k n).data := by
  unfold JINT
  exact append_no_newline _ _ (append_no_newline _ _ (append_no_newline _ _
    (append_no_newline _ _ (by decide) (by decide)) hk) (by decide))
    (int_toString_no_newline _)

/-- A record without its line end contains no line end when the three strings
of the replay that it quotes contain none. -/
theorem playerRecord_line (s : SlippiReplay) (i : Nat)
    (h1 : '\n' ∉ s.start_time.data) (h2 : '\n' ∉ (s.player i).tag_code.data)
    (h3 : '\n' ∉ (s.player i).tag.data) :
    '\n' ∉ ("\x7b" ++ playerRecordBody s i ++ " \x7d").data := by
  have hc : '\n' ∉ (",").data := by decide
  unfold playerRecordBody
  refine append_no_newline _ _ (append_no_newline _ _ (by decide) ?_) (by decide)
  exact append_no_newline _ _ (append_no_newline _ _ (append_no_newline _ _
    (append_no_newline _ _ (append_no_newline _ _ (append_no_newline _ _
    (append_no_newline _ _ (append_no_newline _ _ (append_no_newline _ _
    (append_no_newline _ _ (append_no_newline _ _ (append_no_newline _ _
      (JSTR_no_newline _ _ (by decide) h1) hc)
      (JINT_no_newline _ _ (by decide))) hc)
      (JSTR_no_newline _ _ (by decide) h2)) hc)
      (JSTR_no_newline _ _ (by decide) h3)) hc)
      (JINT_no_newline _ _ (by decide))) hc)
      (JINT_no_newline _ _ (by decide))) hc)
      (JINT_no_newline _ _ (by decide))

/-- C9, as stated, fails: the record of slot 0 of `newlineTagReplay`, an active
slot whose tag holds a line end, is not one line, because the tag is inserted
into the record as it is. -/
theorem playerSettings_record_one_line_fails :
    (newlineTagReplay.player 0).player_type ≠ 3 ∧
    ¬ (∃ line, playerRecord newlineTagReplay 0 = line ++ "\n" ∧ '\n' ∉ line.data) := by
  refine ⟨by decide, ?_⟩
  rintro ⟨line, h, hn⟩
  have hd := congrArg String.data h
  simp only [playerRecord, String.data_append] at hd
  have hline : line.data =
      ("\x7b").data ++ (playerRecordBody newlineTagReplay 0).data ++ (" \x7d").data :=
    (List.append_cancel_right hd).symm
  apply hn
  rw [hline]
  have htag : '\n' ∈ (JSTR "player_tag" (newlineTagReplay.player 0).tag).data := by
    simp only [JSTR, String.data_append, List.mem_append]
    left; right
    decide
  simp only [playerRecordBody, String.data_append, List.mem_append]
  left; right; left; left; left; left; left; left; right
  exact htag

/-- C9, amended: the output of `playerSettingsAsJson` is the concatenation, in ascending
slot order, of one record for each slot `i < 4` with `player_type != 3`, and of
nothing else (no empty slot, no partner slot `4 .. 7`), so it has as many
records as there are active primary players; the record of slot `i` opens with
a brace, gives `port` as `i + 1` and `player_index` as `i`, closes with a blank
and a brace and is followed by a line end; and it is a single line whenever
`start_time` and the slot's `tag_code` and `tag` contain no line end. -/
theorem playerSettings_records (s : SlippiReplay) :
    playerSettingsAsJson s =
      String.join (((List.range 4).filter
        (fun i => decide ((s.player i).player_type ≠ 3))).map (playerRecord s)) ∧
    (((List.range 4).filter
        (fun i => decide ((s.player i).player_type ≠ 3))).map (playerRecord s)).length =
      (List.range 4).countP (fun i => decide ((s.player i).player_type ≠ 3)) ∧
    (∀ i, playerRecord s i =
      "\x7b" ++ JSTR "match_id" s.start_time ++ "," ++ JINT "port" (Int.ofNat (i + 1)) ++ "," ++
        JSTR "slippi_code" (s.player i).tag_code ++ "," ++
        JSTR "player_tag" (s.player i).tag ++ "," ++
        JINT "player_type" (Int.ofNat (s.player i).player_type) ++ "," ++
        JINT "player_index" (Int.ofNat i) ++ "," ++
        JINT "ext_char" (Int.ofNat (s.player i).ext_char_id) ++ " \x7d" ++ "\n") ∧
    (∀ i : Nat, i < 4 →
      JINT "port" (Int.ofNat (i + 1)) = " \"port\": " ++ toString (i + 1) ∧
      JINT "player_index" (Int.ofNat i) = " \"player_index\": " ++ toString i) ∧
    (∀ i, '\n' ∉ s.start_time.data → '\n' ∉ (s.player i).tag_code.data →
      '\n' ∉ (s.player i).tag.data →
      ∃ line, playerRecord s i = line ++ "\n" ∧ '\n' ∉ line.data) := by
  refine ⟨playerSettingsAsJson_eq s, ?_, ?_, ?_, ?_⟩
  · rw [List.length_map, List.countP_eq_length_filter]
  · intro i
    simp only [playerRecord, playerRecordBody, String.append_assoc]
  · intro i hi
    interval_cases i <;> exact ⟨by decide, by decide⟩
  · intro i h1 h2 h3
    exact ⟨"\x7b" ++ playerRecordBody s i ++ " \x7d", rfl, playerRecord_line s i h1 h2 h3⟩

/-- Witness for C9 on `sampleReplay`, whose slots 0 and 1 are active: the output
consists of two records, each of them one line. -/
theorem playerSettings_records_witness :
    (List.range 4).countP (fun i => decide ((sampleReplay.player i).player_type ≠ 3)) = 2 ∧
    playerSettingsAsJson sampleReplay =
      playerRecord sampleReplay 0 ++ playerRecord sampleReplay 1 ∧
    (∃ line, playerRecord sampleReplay 0 = line ++ "\n" ∧ '\n' ∉ line.data) ∧
    (∃ line, playerRecord sampleReplay 1 = line ++ "\n" ∧ '\n' ∉ line.data) := by
  have hf : (List.range 4).filter
      (fun i => decide ((sampleReplay.player i).player_type ≠ 3)) = [0, 1] := by decide
  refine ⟨by decide, ?_,
    (playerSettings_records sampleReplay).2.2.2.2 0 (by decide) (by decide) (by decide),
    (playerSettings_records sampleReplay).2.2.2.2 1 (by decide) (by decide) (by decide)⟩
  rw [(playerSettings_records sampleReplay).1, hf]
  simp only [List.map_cons, List.map_nil, string_join_cons, string_join_nil,
    String.append_empty]

/-! ## Claims on the command line driver -/

theorem getCmdOption_nil (option : String) : getCmdOption [] option = none := rfl

/-- Unfolding of `getCmdOption` along the argument list. -/
theorem getCmdOption_cons (a : String) (l : List String) (option : String) :
    getCmdOption (a :: l) option = if a = option then l.head? else getCmdOption l option := by
  unfold getCmdOption
  by_cases h : a = option
  · subst h
    rw [if_pos rfl, List.indexOf_cons_self]
    cases l with
    | nil => rfl
    | cons b l => simp
  · rw [if_neg h, List.indexOf_cons_ne l h]
    simp only [List.length_cons, Nat.succ_eq_add_one, ne_eq, add_left_inj,
      List.getElem?_cons_succ]

/-- A result of `getCmdOption` is the argument that follows the first
occurrence of the option. -/
theorem getCmdOption_eq_some (args : List String) (option v : String) :
    getCmdOption args option = some v ↔
      ∃ pre post, args = pre ++ option :: v :: post ∧ option ∉ pre := by
  induction args with
  | nil =>
    rw [getCmdOption_nil]
    constructor
    · intro h; cases h
    · rintro ⟨pre, post, h, _⟩
      cases pre <;> cases h
  | cons a l ih =>
    rw [getCmdOption_cons]
    by_cases h : a = option
    · subst h
      rw [if_pos rfl]
      constructor
      · intro hv
        cases l with
        | nil => cases hv
        | cons b l =>
          simp only [List.head?_cons, Option.some.injEq] at hv
          subst hv
          exact ⟨[], l, rfl, List.not_mem_nil _⟩
      · rintro ⟨pre, post, hl, hpre⟩
        cases pre with
        | nil =>
          simp only [List.nil_append, List.cons.injEq, true_and] at hl
          subst hl
          rfl
        | cons p pre =>
          simp only [List.cons_append, List.cons.injEq] at hl
          exact absurd (hl.1 ▸ List.mem_cons_self p pre) hpre
    · rw [if_neg h, ih]
      constructor
      · rintro ⟨pre, post, hl, hpre⟩
        refine ⟨a :: pre, post, by rw [hl]; rfl, ?_⟩
        intro hm
        rcases List.mem_cons.1 hm with h1 | h1
        · exact h h1.symm
        · exact hpre h1
      · rintro ⟨pre, post, hl, hpre⟩
        cases pre with
        | nil =>
          simp only [List.nil_append, List.cons.injEq] at hl
          exact absurd hl.1 h
        | cons p pre =>
          simp only [List.cons_append, List.cons.injEq] at hl
          exact ⟨pre, post, hl.2, fun hm => hpre (List.mem_cons_of_mem _ hm)⟩

/-- The function `getCmdOption` returns null exactly when the option does not
occur or its first occurrence is the last argument. -/
theorem getCmdOption_eq_none (args : List String) (option : String) :
    getCmdOption args option = none ↔
      option ∉ args ∨ ∃ pre, args = pre ++ [option] ∧ option ∉ pre := by
  induction args with
  | nil => simp [getCmdOption_nil]
  | cons a l ih =>
    rw [getCmdOption_cons]
    by_cases h : a = option
    · subst h
      rw [if_pos rfl]
      constructor
      · intro hv
        cases l with
        | nil => exact Or.inr ⟨[], rfl, List.not_mem_nil _⟩
        | cons b l => simp at hv
      · rintro (hn | ⟨pre, hl, hpre⟩)
        · exact absurd (List.mem_cons_self _ _) hn
        · cases pre with
          | nil =>
            simp only [List.nil_append, List.cons.injEq, true_and] at hl
            subst hl
            rfl
          | cons p pre =>
            simp only [List.cons_append, List.cons.injEq] at hl
            exact absurd (hl.1 ▸ List.mem_cons_self p pre) hpre
    · rw [if_neg h, ih]
      constructor
      · rintro (hn | ⟨pre, hl, hpre⟩)
        · left
          intro hm
          rcases List.mem_cons.1 hm with h1 | h1
          · exact h h1.symm
          · exact hn h1
        · right
          refine ⟨a :: pre, by rw [hl]; rfl, ?_⟩
          intro hm
          rcases List.mem_cons.1 hm with h1 | h1
          · exact h h1.symm
          · exact hpre h1
      · rintro (hn | ⟨pre, hl, hpre⟩)
        · exact Or.inl (fun hm => hn (List.mem_cons_of_mem _ hm))
        · cases pre with
          | nil =>
            simp only [List.nil_append, List.cons.injEq] at hl
            exact absurd hl.1 h
          | cons p pre =>
            simp only [List.cons_append, List.cons.injEq] at hl
            exact Or.inr ⟨pre, hl.2, fun hm => hpre (List.mem_cons_of_mem _ hm)⟩

theorem cmdOptionExists_iff (args : List String) (option : String) :
    cmdOptionExists args option = true ↔ option ∈ args := by
  unfold cmdOptionExists
  rw [decide_eq_true_eq, ne_eq, List.indexOf_eq_length, not_not]

/-- C18: `getCmdOption` returns `v` exactly when `v` is the argument that
immediately follows the first occurrence of the option; it returns null exactly
when the option does not occur or its first occurrence is the last argument;
and a non-null result implies that `cmdOptionExists` is true. -/
theorem getCmdOption_first_occurrence (args : List String) (option : String) :
    (∀ v, getCmdOption args option = some v ↔
      ∃ pre post, args = pre ++ option :: v :: post ∧ option ∉ pre) ∧
    (getCmdOption args option = none ↔
      option ∉ args ∨ ∃ pre, args = pre ++ [option] ∧ option ∉ pre) ∧
    (∀ v, getCmdOption args option = some v → cmdOptionExists args option = true) := by
  refine ⟨getCmdOption_eq_some args option, getCmdOption_eq_none args option, ?_⟩
  intro v hv
  obtain ⟨pre, post, hl, _⟩ := (getCmdOption_eq_some args option v).1 hv
  rw [cmdOptionExists_iff, hl]
  simp

/-- Witness for C18: in `slippc -i a.slp -j out.json -i b.slp` the option `-i`
yields `a.slp`, and in `slippc -f -j` the option `-j` yields null although it
occurs. -/
theorem getCmdOption_first_occurrence_witness :
    getCmdOption ["slippc", "-i", "a.slp", "-j", "out.json", "-i", "b.slp"] "-i" =
      some "a.slp" ∧
    cmdOptionExists ["slippc", "-i", "a.slp", "-j", "out.json", "-i", "b.slp"] "-i" = true ∧
    getCmdOption ["slippc", "-f", "-j"] "-j" = none ∧
    cmdOptionExists ["slippc", "-f", "-j"] "-j" = true :=
  ⟨((getCmdOption_first_occurrence
      ["slippc", "-i", "a.slp", "-j", "out.json", "-i", "b.slp"] "-i").1 "a.slp").2
      ⟨["slippc"], ["-j", "out.json", "-i", "b.slp"], rfl, by decide⟩,
   (getCmdOption_first_occurrence
      ["slippc", "-i", "a.slp", "-j", "out.json", "-i", "b.slp"] "-i").2.2 "a.slp" (by decide),
   (getCmdOption_first_occurrence ["slippc", "-f", "-j"] "-j").2.1.2
      (Or.inr ⟨["slippc", "-f"], rfl, by decide⟩),
   by decide⟩

/-- C11 (as the code behaves): with an analysis path other than `-` and a
successful analysis, `handleAnalysis` saves the analysis to `c.outfile`, the
path given with `-j`, whatever path was given with `-a`. -/
theorem handleAnalysis_saves_to_outfile (env : Env) (c : cmdoptions) (loaded f : String)
    (hf : c.analysisfile = some f) (hdash : f ≠ "-")
    (hs : (env.analyze loaded).success = true) :
    handleAnalysis env c loaded =
      some ([Action.analyze loaded, Action.analysisSave c.outfile], 0) := by
  simp [handleAnalysis, hf, hdash, hs]

/-- Evaluation for C11 on `slippc -i game.slp -j out.json -a analysis.json`: the
analysis is saved to `out.json`, not to `analysis.json`. -/
theorem handleAnalysis_saves_to_outfile_witness :
    handleAnalysis okEnv bothOutputs "/tmp/game.slp" =
      some ([Action.analyze "/tmp/game.slp", Action.analysisSave (some "out.json")], 0) ∧
    Action.analysisSave (some "out.json") ≠ Action.analysisSave bothOutputs.analysisfile :=
  ⟨handleAnalysis_saves_to_outfile okEnv bothOutputs "/tmp/game.slp" "analysis.json" rfl
     (by decide) rfl,
   by decide⟩

/-- C12 (as the code behaves): when the JSON path is `-`, `handleJson` performs
no action at all, in particular it writes nothing to standard output; for any
other path it saves to that path with `delta = !nodelta`; it returns 0. -/
theorem handleJson_actions (c : cmdoptions) (o : String) (ho : c.outfile = some o) :
    handleJson c =
      some (if o = "-" then [] else [Action.parserSave o c.infile (!c.nodelta)], 0) := by
  unfold handleJson
  rw [ho]
  by_cases h : o = "-" <;> simp [h]

/-- Evaluation for C12 on `slippc -i game.slp -j -`: no action, nothing on
standard output. -/
theorem handleJson_actions_witness :
    handleJson jsonToStdout = some ([], 0) :=
  handleJson_actions jsonToStdout "-" rfl

theorem handleJson_eq (c : cmdoptions) (h : c.outfile.isSome = true) :
    handleJson c = some (jsonActions c, 0) := by
  obtain ⟨o, ho⟩ := Option.isSome_iff_exists.1 h
  unfold handleJson jsonActions
  rw [ho]
  by_cases hd : o = "-" <;> simp [hd]

theorem handleAnalysis_eq (env : Env) (c : cmdoptions) (loaded : String)
    (h : c.analysisfile.isSome = true) :
    handleAnalysis env c loaded = some (analysisActions env c loaded, 0) := by
  obtain ⟨f, hf⟩ := Option.isSome_iff_exists.1 h
  unfold handleAnalysis analysisActions
  rw [hf]
  by_cases hs : (env.analyze loaded).success = true <;>
    by_cases hd : f = "-" <;> simp [hs, hd]

theorem jsonActions_none (c : cmdoptions) (h : c.outfile = none) : jsonActions c = [] := by
  unfold jsonActions; rw [h]

theorem analysisActions_none (env : Env) (c : cmdoptions) (loaded : String)
    (h : c.analysisfile = none) : analysisActions env c loaded = [] := by
  unfold analysisActions; rw [h]

/-- The function `handleSingleFile` on options with an input file and at least
one output path. -/
theorem handleSingleFile_eq (env : Env) (c : cmdoptions) (infile : String)
    (hin : c.infile = some infile)
    (hout : c.outfile.isSome = true ∨ c.analysisfile.isSome = true) :
    handleSingleFile env c =
      if env.load ("/tmp/" ++ infile) = true then
        some (Action.load ("/tmp/" ++ infile) ::
          (jsonActions c ++ analysisActions env c ("/tmp/" ++ infile)), 0)
      else some ([Action.load ("/tmp/" ++ infile)], 2) := by
  unfold handleSingleFile
  rw [if_pos hout, hin]
  by_cases hl : env.load ("/tmp/" ++ infile) = true
  · simp only [hl, not_true_eq_false, if_false, if_true]
    cases ho : c.outfile with
    | none =>
      cases ha : c.analysisfile with
      | none => rw [ho, ha] at hout; simp at hout
      | some f =>
        have ha2 : c.analysisfile.isSome = true := by rw [ha]; rfl
        rw [← ha, if_pos ha2, handleAnalysis_eq env c _ ha2, jsonActions_none c ho]
        simp
    | some o =>
      have ho2 : c.outfile.isSome = true := by rw [ho]; rfl
      cases ha : c.analysisfile with
      | none =>
        rw [← ho]
        simp only [ho2, if_true, handleJson_eq c ho2, ha, Option.isSome_none,
          Bool.false_eq_true, if_false, analysisActions_none env c _ ha, List.append_nil,
          Int.add_zero]
      | some f =>
        have ha2 : c.analysisfile.isSome = true := by rw [ha]; rfl
        rw [← ho, ← ha]
        simp only [ho2, ha2, if_true, handleJson_eq c ho2, handleAnalysis_eq env c _ ha2,
          Int.add_zero]
  · simp [hl]

theorem loadPath_jsonActions (c : cmdoptions) : (jsonActions c).filterMap Action.loadPath = [] := by
  unfold jsonActions
  cases c.outfile with
  | none => rfl
  | some o => by_cases h : o = "-" <;> simp [h, Action.loadPath]

theorem loadPath_analysisActions (env : Env) (c : cmdoptions) (loaded : String) :
    (analysisActions env c loaded).filterMap Action.loadPath = [] := by
  unfold analysisActions
  cases c.analysisfile with
  | none => rfl
  | some f =>
    by_cases hs : (env.analyze loaded).success = true <;>
      by_cases h : f = "-" <;> simp [hs, h, Action.loadPath]

/-- The only file that `handleSingleFile` asks the parser to load is `/tmp/`
followed by the input path. -/
theorem handleSingleFile_loads (env : Env) (c : cmdoptions) (infile : String)
    (hin : c.infile = some infile)
    (hout : c.outfile.isSome = true ∨ c.analysisfile.isSome = true) :
    ∃ acts ret, handleSingleFile env c = some (acts, ret) ∧
      acts.filterMap Action.loadPath = ["/tmp/" ++ infile] := by
  rw [handleSingleFile_eq env c infile hin hout]
  by_cases hl : env.load ("/tmp/" ++ infile) = true
  · rw [if_pos hl]
    refine ⟨_, _, rfl, ?_⟩
    rw [List.filterMap_cons, List.filterMap_append, loadPath_jsonActions,
      loadPath_analysisActions]
    rfl
  · rw [if_neg hl]
    exact ⟨_, _, rfl, rfl⟩

/-- C13, as stated, fails: for `slippc -i game.slp -j out.json -a analysis.json`
the parser is not asked to load `game.slp`, the path given with `-i`. -/
theorem handleSingleFile_loads_infile_fails :
    ¬ (∃ acts ret, handleSingleFile okEnv bothOutputs = some (acts, ret) ∧
        acts.filterMap Action.loadPath = ["game.slp"]) := by
  rintro ⟨acts, ret, h, hl⟩
  obtain ⟨acts2, ret2, h2, hl2⟩ :=
    handleSingleFile_loads okEnv bothOutputs "game.slp" rfl (Or.inl rfl)
  rw [h2] at h
  cases h
  rw [hl2] at hl
  revert hl
  decide

/-- C13, amended: with an input file and at least one output path,
`handleSingleFile` asks the parser to load exactly the path `/tmp/` followed by
the input path given with `-i`; it returns 2 exactly when that load fails, and
then performs no other action; and with neither `-j` nor `-a` it loads nothing
and returns 0. -/
theorem handleSingleFile_load_and_result (env : Env) (c : cmdoptions) :
    (c.outfile = none → c.analysisfile = none → handleSingleFile env c = some ([], 0)) ∧
    (∀ infile, c.infile = some infile →
      (c.outfile.isSome = true ∨ c.analysisfile.isSome = true) →
      ∃ acts ret, handleSingleFile env c = some (acts, ret) ∧
        acts.filterMap Action.loadPath = ["/tmp/" ++ infile] ∧
        (ret = 2 ↔ env.load ("/tmp/" ++ infile) = false) ∧
        (env.load ("/tmp/" ++ infile) = false → acts = [Action.load ("/tmp/" ++ infile)]) ∧
        (env.load ("/tmp/" ++ infile) = true → ret = 0)) := by
  constructor
  · intro ho ha
    simp [handleSingleFile, ho, ha]
  · intro infile hin hout
    obtain ⟨acts, ret, h, hl⟩ := handleSingleFile_loads env c infile hin hout
    refine ⟨acts, ret, h, hl, ?_⟩
    rw [handleSingleFile_eq env c infile hin hout] at h
    by_cases hload : env.load ("/tmp/" ++ infile) = true
    · rw [if_pos hload] at h
      simp only [Option.some.injEq, Prod.mk.injEq] at h
      obtain ⟨_, hret⟩ := h
      subst hret
      simp [hload]
    · rw [if_neg hload] at h
      simp only [Option.some.injEq, Prod.mk.injEq] at h
      obtain ⟨hacts, hret⟩ := h
      subst hret
      subst hacts
      simp [hload]

/-- Witness for C13: with `-j` and `-a` and a file that loads, the path loaded is
`/tmp/game.slp` and the result is 0; when the load fails, the result is 2 and
the load is the only action. -/
theorem handleSingleFile_load_and_result_witness :
    (∃ acts ret, handleSingleFile okEnv bothOutputs = some (acts, ret) ∧
        acts.filterMap Action.loadPath = ["/tmp/" ++ "game.slp"] ∧
        (ret = 2 ↔ okEnv.load ("/tmp/" ++ "game.slp") = false) ∧
        (okEnv.load ("/tmp/" ++ "game.slp") = false →
          acts = [Action.load ("/tmp/" ++ "game.slp")]) ∧
        (okEnv.load ("/tmp/" ++ "game.slp") = true → ret = 0)) ∧
    handleSingleFile failingEnv bothOutputs = some ([Action.load "/tmp/game.slp"], 2) :=
  ⟨(handleSingleFile_load_and_result okEnv bothOutputs).2 "game.slp" rfl (Or.inl rfl),
   by decide⟩

theorem entryOptions_infile (env : Env) (c : cmdoptions) (e : DirEntry) :
    (entryOptions env c e).infile = some e.path := rfl

theorem entryOptions_outputs (env : Env) (c : cmdoptions) (e : DirEntry)
    (h : c.outfile.isSome = true ∨ c.analysisfile.isSome = true) :
    (entryOptions env c e).outfile.isSome = true ∨
      (entryOptions env c e).analysisfile.isSome = true := by
  rcases h with h | h
  · left; simpa [entryOptions] using h
  · right; simpa [entryOptions] using h

/-- The loop of `handleDirectory` never stops: it visits every entry, and the
files loaded are those of all entries with extension `slp`, in order. -/
theorem handleEntry_foldl (env : Env) (c : cmdoptions)
    (h : c.outfile.isSome = true ∨ c.analysisfile.isSome = true)
    (es : List DirEntry) (acts : List Action) :
    ∃ acts2, es.foldl (handleEntry env c) (some acts) = some (acts ++ acts2) ∧
      acts2.filterMap Action.loadPath =
        (es.filter (fun e => decide (env.getFileExt e.filename = "slp"))).map
          (fun e => "/tmp/" ++ e.path) := by
  induction es generalizing acts with
  | nil => exact ⟨[], by simp, rfl⟩
  | cons e es ih =>
    rw [List.foldl_cons]
    by_cases hext : env.getFileExt e.filename = "slp"
    · obtain ⟨a1, r1, h1, hl1⟩ := handleSingleFile_loads env (entryOptions env c e) e.path
        (entryOptions_infile env c e) (entryOptions_outputs env c e h)
      have hstep : handleEntry env c (some acts) e = some (acts ++ a1) := by
        simp [handleEntry, hext, h1]
      obtain ⟨a2, h2, hl2⟩ := ih (acts ++ a1)
      refine ⟨a1 ++ a2, ?_, ?_⟩
      · rw [hstep, h2, List.append_assoc]
      · rw [List.filterMap_append, hl1, hl2, List.filter_cons_of_pos (by simpa using hext)]
        rfl
    · have hstep : handleEntry env c (some acts) e = some acts := by
        simp [handleEntry, hext]
      obtain ⟨a2, h2, hl2⟩ := ih acts
      refine ⟨a2, ?_, ?_⟩
      · rw [hstep, h2]
      · rw [hl2, List.filter_cons_of_neg (by simpa using hext)]

/-- C14: `handleDirectory` returns -2 and loads no file when neither `-j` nor
`-a` is given, or when a requested output path cannot be used as a directory;
otherwise it returns 0 after asking for the load of every directory entry whose
extension is `slp`, in order, whatever the collaborators answer for each file
(a load that fails, so that `handleSingleFile` returns 2, changes neither the
files visited nor the result). -/
theorem handleDirectory_result (env : Env) (c : cmdoptions) :
    (c.outfile = none → c.analysisfile = none → handleDirectory env c = some ([], -2)) ∧
    (∀ o, c.outfile = some o → env.makeDirectoryIfNotExists o = false →
      handleDirectory env c = some ([Action.makeDirectory o], -2)) ∧
    (∀ a, c.analysisfile = some a → env.makeDirectoryIfNotExists a = false →
      (∀ o, c.outfile = some o → env.makeDirectoryIfNotExists o = true) →
      ∃ acts, handleDirectory env c = some (acts, -2) ∧
        acts.filterMap Action.loadPath = []) ∧
    (∀ infile, c.infile = some infile →
      (c.outfile.isSome = true ∨ c.analysisfile.isSome = true) →
      (∀ o, c.outfile = some o → env.makeDirectoryIfNotExists o = true) →
      (∀ a, c.analysisfile = some a → env.makeDirectoryIfNotExists a = true) →
      ∃ acts, handleDirectory env c = some (acts, 0) ∧
        acts.filterMap Action.loadPath =
          ((env.entries infile).filter
            (fun e => decide (env.getFileExt e.filename = "slp"))).map
            (fun e => "/tmp/" ++ e.path)) := by
  refine ⟨?_, ?_, ?_, ?_⟩
  · intro ho ha
    simp [handleDirectory, ho, ha]
  · intro o ho hmk
    simp [handleDirectory, ho, hmk]
  · intro a ha hmk hok
    cases ho : c.outfile with
    | none =>
      refine ⟨[Action.makeDirectory a], ?_, rfl⟩
      simp [handleDirectory, ho, ha, hmk]
    | some o =>
      refine ⟨[Action.makeDirectory o, Action.makeDirectory a], ?_, rfl⟩
      simp [handleDirectory, ho, ha, hmk, hok o ho]
  · intro infile hin hout hok1 hok2
    have hdirs : ∃ pre : List Action, pre.filterMap Action.loadPath = [] ∧
        handleDirectory env c =
          ((env.entries infile).foldl (handleEntry env c) (some pre)).map
            (fun acts => (acts, (0 : Int))) := by
      cases ho : c.outfile with
      | none =>
        cases ha : c.analysisfile with
        | none => rw [ho, ha] at hout; simp at hout
        | some a =>
          refine ⟨[Action.makeDirectory a], rfl, ?_⟩
          simp only [handleDirectory, ho, ha, hin, hok2 a ha, Option.isSome_some,
            Option.isSome_none, Bool.false_eq_true, or_true, true_or, or_false, false_or,
            not_true_eq_false, if_false, List.nil_append, List.append_nil,
            List.singleton_append]
          generalize List.foldl (handleEntry env c) _ (env.entries infile) = X
          cases X <;> rfl
      | some o =>
        cases ha : c.analysisfile with
        | none =>
          refine ⟨[Action.makeDirectory o], rfl, ?_⟩
          simp only [handleDirectory, ho, ha, hin, hok1 o ho, Option.isSome_some,
            Option.isSome_none, Bool.false_eq_true, or_true, true_or, or_false, false_or,
            not_true_eq_false, if_false, List.nil_append, List.append_nil,
            List.singleton_append]
          generalize List.foldl (handleEntry env c) _ (env.entries infile) = X
          cases X <;> rfl
        | some a =>
          refine ⟨[Action.makeDirectory o, Action.makeDirectory a], rfl, ?_⟩
          simp only [handleDirectory, ho, ha, hin, hok1 o ho, hok2 a ha, Option.isSome_some,
            Option.isSome_none, Bool.false_eq_true, or_true, true_or, or_false, false_or,
            not_true_eq_false, if_false, List.nil_append, List.append_nil,
            List.singleton_append]
          generalize List.foldl (handleEntry env c) _ (env.entries infile) = X
          cases X <;> rfl
    obtain ⟨pre, hpre, hd⟩ := hdirs
    obtain ⟨acts2, hfold, hloads⟩ := handleEntry_foldl env c hout (env.entries infile) pre
    rw [hfold] at hd
    refine ⟨pre ++ acts2, hd, ?_⟩
    rw [List.filterMap_append, hpre, List.nil_append, hloads]

/-- Witness for C14 on the directory `replays` with `-j json`: with loads that
succeed as with loads that all fail, the result is 0 and both `.slp` entries
are visited; without `-j` and `-a` the result is -2. -/
theorem handleDirectory_result_witness :
    (∃ acts, handleDirectory failingEnv directoryJson = some (acts, 0) ∧
        acts.filterMap Action.loadPath =
          ((failingEnv.entries "replays").filter
            (fun e => decide (failingEnv.getFileExt e.filename = "slp"))).map
            (fun e => "/tmp/" ++ e.path)) ∧
    handleDirectory failingEnv directoryJson =
      some ([Action.makeDirectory "json", Action.load "/tmp/replays/a.slp",
        Action.load "/tmp/replays/b.slp"], 0) ∧
    handleDirectory okEnv { directoryJson with outfile := none } = some ([], -2) :=
  ⟨(handleDirectory_result failingEnv directoryJson).2.2.2 "replays" rfl (Or.inl rfl)
     (fun _ _ => rfl) (fun _ h => by cases h),
   by decide,
   (handleDirectory_result okEnv { directoryJson with outfile := none }).1 rfl rfl⟩

/-! ## Frame reads of `playerFramesAsParquet` after `setFrames` -/

theorem readAt_newFrames (n f : Nat) (h : f < n) :
    (readAt (some (newFrames n)) f).isSome = true := by
  simp [readAt, newFrames, h]

/-- C15, as stated, fails: after `setFrames` on `orphanPartnerReplay` the
exporter reads partner slot 5, whose `player_type` is not 3, although its
primary slot 1 is not a paired character and `setFrames` allocated nothing for
slot 5; the read of `player[5].frame[0]` is outside allocated storage. -/
theorem playerFrames_reads_allocated_fails :
    ¬ (∀ p, p < 8 → ((setFrames 14 orphanPartnerReplay (-122)).player p).player_type ≠ 3 →
        p ∈ (setFramesRun 14 orphanPartnerReplay (-122)).allocated ∧
        ∃ a, ((setFrames 14 orphanPartnerReplay (-122)).player p).frame = some a ∧
          (setFrames 14 orphanPartnerReplay (-122)).frame_count ≤ a.length) := by
  intro h
  have h5 := (h 5 (by decide) (by decide)).1
  revert h5
  decide

/-- C15, amended: let every partner slot `p` in `4 .. 7` with
`player_type != 3` have a primary slot `p - 4` that is not empty and holds the
paired character.  Then after `setFrames` every slot `p < 8` that
`playerFramesAsParquet` reads (`player_type != 3`) received from `setFrames` a
frame array of exactly `frame_count` entries, every read `player[p].frame[f]`
with `f < frame_count` is within that array, and the export returns. -/
theorem playerFrames_reads_allocated (CLIMBER : Nat) (write : Writer) (s : SlippiReplay)
    (max_frames : Int)
    (hpartner : ∀ p, 4 ≤ p → p < 8 → (s.player p).player_type ≠ 3 →
      (s.player (p - 4)).player_type ≠ 3 ∧ (s.player (p - 4)).ext_char_id = CLIMBER) :
    (∀ p, p < 8 → ((setFrames CLIMBER s max_frames).player p).player_type ≠ 3 →
      p ∈ (setFramesRun CLIMBER s max_frames).allocated ∧
      ((setFrames CLIMBER s max_frames).player p).frame =
        some (newFrames (setFrames CLIMBER s max_frames).frame_count) ∧
      (newFrames (setFrames CLIMBER s max_frames).frame_count).length =
        (setFrames CLIMBER s max_frames).frame_count) ∧
    (∀ pf ∈ activePairs (setFrames CLIMBER s max_frames),
      (readAt ((setFrames CLIMBER s max_frames).player pf.1).frame pf.2).isSome = true) ∧
    (∃ r, playerFramesAsParquet write (setFrames CLIMBER s max_frames) = some r) := by
  have hslot : ∀ p, p < 8 → ((setFrames CLIMBER s max_frames).player p).player_type ≠ 3 →
      p ∈ (setFramesRun CLIMBER s max_frames).allocated ∧
      ((setFrames CLIMBER s max_frames).player p).frame =
        some (newFrames (setFrames CLIMBER s max_frames).frame_count) := by
    intro p hp h3
    simp only [setFrames, setFramesRun_player_type] at h3
    rw [mem_setFramesRun_allocated]
    simp only [setFrames, setFramesRun_frame, setFramesRun_frame_count]
    by_cases h4 : p < 4
    · exact ⟨Or.inl ⟨h4, h3⟩, by rw [if_pos ⟨h4, h3⟩]⟩
    · have hge : 4 ≤ p := by omega
      have hc := hpartner p hge hp h3
      refine ⟨Or.inr ⟨hge, hp, hc.1, hc.2⟩, ?_⟩
      rw [if_neg (fun h => h4 h.1), if_pos ⟨hge, hp, hc.1, hc.2⟩]
  have hread : ∀ pf ∈ activePairs (setFrames CLIMBER s max_frames),
      (readAt ((setFrames CLIMBER s max_frames).player pf.1).frame pf.2).isSome = true := by
    rintro ⟨p, f⟩ hpf
    obtain ⟨hp, h3, hf⟩ := (mem_activePairs _ p f).1 hpf
    rw [(hslot p hp h3).2]
    exact readAt_newFrames _ _ hf
  refine ⟨fun p hp h3 => ⟨(hslot p hp h3).1, (hslot p hp h3).2, by simp [newFrames]⟩,
    hread, ?_⟩
  obtain ⟨es, hes⟩ := mapM_option_isSome (storedFrame (setFrames CLIMBER s max_frames))
    (activePairs (setFrames CLIMBER s max_frames))
    (fun pf hpf => by simpa [storedFrame] using hread pf hpf)
  exact ⟨_, playerFramesAsParquet_isSome write _ es hes⟩

/-- Witness for C15 on `climberReplay`, whose partner slot 4 is active and has
the active paired-character primary slot 0: after `setFrames` for two frames
the export returns, partner slot 4 was allocated by `setFrames`, and its two
frames are among the reads, all of which are within storage. -/
theorem playerFrames_reads_allocated_witness :
    ((climberReplay.player 4).player_type ≠ 3 ∧
      (climberReplay.player (4 - 4)).player_type ≠ 3 ∧
      (climberReplay.player (4 - 4)).ext_char_id = 14) ∧
    (4 ∈ (setFramesRun 14 climberReplay (-121)).allocated ∧
      ((setFrames 14 climberReplay (-121)).player 4).frame =
        some (newFrames (setFrames 14 climberReplay (-121)).frame_count) ∧
      (newFrames (setFrames 14 climberReplay (-121)).frame_count).length =
        (setFrames 14 climberReplay (-121)).frame_count) ∧
    (∀ pf ∈ activePairs (setFrames 14 climberReplay (-121)),
      (readAt ((setFrames 14 climberReplay (-121)).player pf.1).frame pf.2).isSome = true) ∧
    (∃ r, playerFramesAsParquet okWriter (setFrames 14 climberReplay (-121)) = some r) ∧
    activePairs (setFrames 14 climberReplay (-121)) =
      [(0, 0), (0, 1), (1, 0), (1, 1), (4, 0), (4, 1)] :=
  ⟨by decide,
   (playerFrames_reads_allocated 14 okWriter climberReplay (-121) (by decide)).1 4
     (by decide) (by decide),
   (playerFrames_reads_allocated 14 okWriter climberReplay (-121) (by decide)).2.1,
   (playerFrames_reads_allocated 14 okWriter climberReplay (-121) (by decide)).2.2,
   by decide⟩

end slip
